import Mathlib

/-!
Verification of the schema-inference and 3NF-normalization engine
(auto_profiler.py, fk_detector.py, normalizer.py, schema_validator.py).

Shallow embedding conventions:
* a pandas DataFrame is a column list plus a row list; every cell is an
  `Option String` (`none` models NaN/None; the source compares values via
  `str(v)`, so cells are kept in string form);
* Python dicts keyed by strings are association lists in key-insertion order;
* Python float thresholds (0.99, 0.9, 0.4, ...) are modelled as the exact
  rationals they denote;
* Python `raise` sites that the engine does not guard are modelled with
  `Except String`.
-/

namespace ThreeNF

/-- A cell of a table: `none` models a missing value (NaN/None). -/
abbrev Cell := Option String

/-- Check whether `pre` is a leading segment of `l`. -/
def leadsWith : List Char → List Char → Bool
  | [], _ => true
  | _ :: _, [] => false
  | a :: as, b :: bs => a == b && leadsWith as bs

/-- Substring containment on char lists (Python `needle in hay`). -/
def containsSub : List Char → List Char → Bool
  | hay, needle =>
    if leadsWith needle hay then true
    else match hay with
      | [] => false
      | _ :: t => containsSub t needle

/-- Python `needle in hay` for strings (empty needle is always contained). -/
def strContains (hay needle : String) : Bool :=
  containsSub hay.toList needle.toList

/-- First index at which `needle` occurs in `hay`, if any (for regexes). -/
def firstSubAt : List Char → List Char → Nat → Option Nat
  | hay, needle, i =>
    if leadsWith needle hay then some i
    else match hay with
      | [] => none
      | _ :: t => firstSubAt t needle (i + 1)

/-- Last index at which `needle` occurs in `hay`, if any. -/
def lastSubAt (hay needle : List Char) : Option Nat :=
  let rec go : List Char → Nat → Option Nat → Option Nat
    | h, i, best =>
      let best := if leadsWith needle h then some i else best
      match h with
      | [] => best
      | _ :: t => go t (i + 1) best
  go hay 0 none

/-- Python `str.lower` (ASCII case folding, as in the engine's inputs). -/
def strLower (s : String) : String := (s.toList.map Char.toLower).asString

/-- Python `str.startswith`. -/
def strStarts (s pre : String) : Bool := leadsWith pre.toList s.toList

/-- Python `str.endswith`. -/
def strEndsWith (s suffix : String) : Bool :=
  leadsWith suffix.toList.reverse s.toList.reverse

/-- Splitting on a nonempty separator, left to right, non-overlapping
(Python `str.split(sep)`): the `skip` counter consumes the matched
separator's remaining characters. -/
def splitOnCore (sep : List Char) : List Char → Nat → List Char → List (List Char)
  | [], _, cur => [cur.reverse]
  | _ :: rest, skip + 1, cur => splitOnCore sep rest skip cur
  | c :: rest, 0, cur =>
    if leadsWith sep (c :: rest) then
      cur.reverse :: splitOnCore sep rest (sep.length - 1) []
    else splitOnCore sep rest 0 (c :: cur)

/-- Python `str.split(sep)` for a nonempty separator (every call site uses a
literal nonempty separator). -/
def splitOnStr (s sep : String) : List String :=
  if sep.toList.isEmpty then [s]
  else (splitOnCore sep.toList s.toList 0 []).map List.asString

/-- Replacement of every non-overlapping occurrence, left to right
(Python `str.replace`). -/
def replaceCore (pat rep : List Char) : List Char → Nat → List Char
  | [], _ => []
  | _ :: rest, skip + 1 => replaceCore pat rep rest skip
  | c :: rest, 0 =>
    if leadsWith pat (c :: rest) then rep ++ replaceCore pat rep rest (pat.length - 1)
    else c :: replaceCore pat rep rest 0

/-- Python `str.replace` for a nonempty pattern (every call site uses a
literal nonempty pattern). -/
def replaceStr (s pat rep : String) : String :=
  if pat.toList.isEmpty then s
  else (replaceCore pat.toList rep.toList s.toList 0).asString

/-- Python `str.strip` (whitespace from both ends). -/
def strTrim (s : String) : String :=
  (((s.toList.dropWhile Char.isWhitespace).reverse.dropWhile
    Char.isWhitespace).reverse).asString

/-- Drop the first `n` characters. -/
def strDrop (s : String) (n : Nat) : String := (s.toList.drop n).asString

/-- Keep the first occurrence of every element (pandas `unique` order). -/
def sdedupAux [DecidableEq α] : List α → List α → List α
  | [], _ => []
  | a :: as, seen => if a ∈ seen then sdedupAux as seen else a :: sdedupAux as (a :: seen)

/-- First-occurrence deduplication. -/
def sdedup [DecidableEq α] (l : List α) : List α := sdedupAux l []

/-- Does the list contain an element twice? -/
def hasDups [DecidableEq α] : List α → Bool
  | [] => false
  | a :: as => a ∈ as || hasDups as

/-- `itertools.combinations` in the same (lexicographic-by-position) order. -/
def combosOf : List α → Nat → List (List α)
  | _, 0 => [[]]
  | [], _ + 1 => []
  | a :: as, n + 1 => ((combosOf as n).map (a :: ·)) ++ combosOf as (n + 1)

/-- A table of rows; mirrors the pandas DataFrames the engine manipulates. -/
structure DataFrame where
  columns : List String
  rows : List (List Cell)
deriving Repr, DecidableEq, Inhabited

/-- Index of a column name (first match, as in pandas). -/
def colIdx (df : DataFrame) (c : String) : Option Nat :=
  df.columns.findIdx? (· == c)

/-- Value of column `c` in `row`; `none` when the column is absent. -/
def cellAt (df : DataFrame) (row : List Cell) (c : String) : Cell :=
  match colIdx df c with
  | none => none
  | some i => row.getD i none

/-- All cells of one column (`df[c]`). -/
def colCells (df : DataFrame) (c : String) : List Cell :=
  df.rows.map (fun r => cellAt df r c)

/-- `df[c].dropna()` as strings. -/
def nonNullVals (df : DataFrame) (c : String) : List String :=
  (colCells df c).filterMap id

/-- `df[c].dropna().unique()` as strings, first-occurrence order. -/
def uniqueNonNull (df : DataFrame) (c : String) : List String :=
  sdedup (nonNullVals df c)

/-- `df[c].nunique()` (pandas excludes missing values by default). -/
def nunique (df : DataFrame) (c : String) : Nat :=
  (uniqueNonNull df c).length

/-- `df[c].notna().all()`. -/
def allNotNull (df : DataFrame) (c : String) : Bool :=
  (colCells df c).all Option.isSome

/-- Row count (`len(df)`). -/
def rowCount (df : DataFrame) : Nat := df.rows.length

/-- Projection of one row onto a list of columns. -/
def projRow (df : DataFrame) (cols : List String) (row : List Cell) : List Cell :=
  cols.map (cellAt df row)

/-- Projections of all rows onto `cols` (used for `df.duplicated(subset=cols)`). -/
def projections (df : DataFrame) (cols : List String) : List (List Cell) :=
  df.rows.map (projRow df cols)

/-- `df.duplicated(subset=cols, keep=False).any()`; equivalently, its
`.sum() == 0` is the negation of this. -/
def hasDupProj (df : DataFrame) (cols : List String) : Bool :=
  hasDups (projections df cols)

/-- `df[cols].drop_duplicates()` (keeps first occurrences, pandas default). -/
def selectDistinct (df : DataFrame) (cols : List String) : DataFrame :=
  ⟨cols, sdedup (projections df cols)⟩

/-- `df[cols]` without deduplication. -/
def selectCols (df : DataFrame) (cols : List String) : DataFrame :=
  ⟨cols, projections df cols⟩

/-- `df.drop(columns=cols)` (column order preserved). -/
def dropCols (df : DataFrame) (cols : List String) : DataFrame :=
  selectCols df (df.columns.filter (· ∉ cols))

/-- The rows used by `df.groupby(dets, dropna=d)`: pandas drops rows with a
missing group key unless `dropna=False`. -/
def groupSourceRows (df : DataFrame) (dets : List String) (dropna : Bool) : List (List Cell) :=
  if dropna then df.rows.filter (fun r => (projRow df dets r).all Option.isSome)
  else df.rows

/-- The distinct group keys of `df.groupby(dets, dropna=d)`. -/
def groupKeys (df : DataFrame) (dets : List String) (dropna : Bool) : List (List Cell) :=
  sdedup ((groupSourceRows df dets dropna).map (projRow df dets))

/-- `df.groupby(dets, dropna=d)[dep].nunique()`: per group, the number of
distinct non-null values of `dep`. -/
def groupNunique (df : DataFrame) (dets : List String) (dep : String) (dropna : Bool) :
    List Nat :=
  let rows := groupSourceRows df dets dropna
  (groupKeys df dets dropna).map (fun k =>
    (sdedup ((rows.filter (fun r => projRow df dets r == k)).filterMap
      (fun r => cellAt df r dep))).length)

/-!  ## auto_profiler.py — AutoProfiler  -/

/-- `AutoProfiler._is_functional_dependency` (threshold fixed at its default
0.99, modelled as the rational 99/100). -/
def is_functional_dependency (df : DataFrame) (determinants : List String)
    (dependent : String) : Bool :=
  if rowCount df < 2 then false
  else
    let grouped := groupNunique df determinants dependent false
    let ones := (grouped.filter (· == 1)).length
    if ones == grouped.length then true
    -- `(ones / len) >= 0.99` compared exactly: `99 * len <= 100 * ones`
    -- (the group count is nonzero whenever this branch is reached)
    else if 99 * grouped.length ≤ 100 * ones then true
    else false

/-- `AutoProfiler.find_functional_dependencies` with its default
`max_determinant_size = 3`.  The source keys the result dict by the
`"+"`-joined determinant; here the determinant is kept as a column list. -/
def find_functional_dependencies (df : DataFrame) : List (List String × List String) :=
  let columns := df.columns
  let singles := columns.filterMap (fun det =>
    let deps := columns.filter (fun dep =>
      decide (dep ≠ det) && is_functional_dependency df [det] dep)
    if deps.isEmpty then none else some ([det], deps))
  let composites :=
    if rowCount df > 1 && columns.length > 2 then
      (List.range' 2 (min (3 + 1) columns.length - 2)).flatMap (fun size =>
        (combosOf columns size).filterMap (fun detCols =>
          if hasDupProj df detCols then none
          else some (detCols, columns.filter (· ∉ detCols))))
    else []
  singles ++ composites

/-- The PK blacklist of `AutoProfiler.find_candidate_keys`. -/
def profiler_blacklist : List String :=
  ["email", "phone", "price", "amount", "cost", "total", "quantity",
   "date", "timestamp", "name", "description", "address", "status",
   "city", "state", "zip", "country", "supplier", "category"]

/-- The identity-semantic patterns of `AutoProfiler.find_candidate_keys`. -/
def identity_patterns : List String :=
  ["_id", "_key", "_code", "_ref", "_number", "sys_id", "uuid", "guid"]

/-- Does the (lowercased) column name carry identity semantics in the sense of
the single-column branch of `find_candidate_keys`? -/
def single_key_identity (cl : String) : Bool :=
  identity_patterns.any (fun p => strContains cl p) ||
  (strStarts cl "id" || strEndsWith cl "id" ||
   strStarts cl "key" || strEndsWith cl "key" ||
   strStarts cl "code" || strEndsWith cl "code")

/-- Is the column name blacklisted in `find_candidate_keys`? -/
def single_key_blacklisted (cl : String) : Bool :=
  profiler_blacklist.any (fun p => strContains cl p)

/-- Inner loop of the composite branch of `find_candidate_keys`: iterates the
combinations of one size, appending combinations that contain an
identity-patterned member and are duplicate-free, stopping after the third
(the source `break`s once `len(candidate_keys) >= 3`). -/
def collect_keys_of_size (df : DataFrame) :
    List (List String) → List (List String) → List (List String)
  | [], acc => acc
  | cs :: rest, acc =>
    let hasIdentityCol := cs.any (fun col =>
      identity_patterns.any (fun p => strContains (strLower col) p))
    if !hasIdentityCol then collect_keys_of_size df rest acc
    else if !hasDupProj df cs then
      let acc' := acc ++ [cs]
      if acc'.length ≥ 3 then acc' else collect_keys_of_size df rest acc'
    else collect_keys_of_size df rest acc

/-- Outer loop of the composite branch: first size that yields any key wins. -/
def search_key_sizes (df : DataFrame) : List Nat → List (List String)
  | [] => []
  | s :: rest =>
    let found := collect_keys_of_size df (combosOf df.columns s) []
    if found.isEmpty then search_key_sizes df rest else found

/-- Single-column branch of `find_candidate_keys`: non-blacklisted columns with
identity semantics that are unique and fully non-null. -/
def single_candidate_keys (df : DataFrame) : List (List String) :=
  df.columns.filterMap (fun col =>
    let cl := (strLower col)
    if single_key_blacklisted cl then none
    else if single_key_identity cl then
      if nunique df col == rowCount df && allNotNull df col then some [col] else none
    else none)

/-- `AutoProfiler.find_candidate_keys` with its default `max_key_size = 3`. -/
def find_candidate_keys (df : DataFrame) : List (List String) :=
  if rowCount df == 0 then []
  else if !(single_candidate_keys df).isEmpty then single_candidate_keys df
  else if df.columns.length > 1 then
    search_key_sizes df (List.range' 2 (min (3 + 1) (df.columns.length + 1) - 2))
  else single_candidate_keys df

/-!  ## Shared data model: profiles and table metadata  -/

/-- One entry of the per-table profile dict built by
`AutoProfiler.profile_all_tables` (only the fields the downstream components
read).  `primary_key = none` models Python `None`; the partial-dependency dict
keeps its `"+"`-joined determinant keys as in the source. -/
structure Profile where
  primary_key : Option (List String)
  part_deps : List (String × List String)
  trans_deps : List (String × String × List String)
deriving Repr, DecidableEq, Inhabited

/-- Lookup in a string-keyed Python dict modelled as an association list. -/
def plookup (ps : List (String × α)) (k : String) : Option α :=
  (ps.find? (fun e => e.1 == k)).map (·.2)

/-- Insert-or-replace for a string-keyed dict (keeps key order on update,
appends new keys, as Python dicts do). -/
def pstore (ps : List (String × α)) (k : String) (v : α) : List (String × α) :=
  if (ps.find? (fun e => e.1 == k)).isSome then
    ps.map (fun e => if e.1 == k then (k, v) else e)
  else ps ++ [(k, v)]

abbrev Profiles := List (String × Profile)

/-- `table in profiles and profiles[table].get('primary_key')` — the truthy
primary key of a table, if any (`None` and `[]` are both falsy). -/
def pk_truthy (profiles : Profiles) (t : String) : Option (List String) :=
  match plookup profiles t with
  | none => none
  | some p =>
    match p.primary_key with
    | none => none
    | some [] => none
    | some pk => some pk

/-- The profiled primary key of a table as a plain list (empty when the table
is unprofiled or its `primary_key` is `None`). -/
def pk_list (profiles : Profiles) (t : String) : List String :=
  ((plookup profiles t).bind (·.primary_key)).getD []

/-- One entry of the metadata dict built by `MetadataExtractor`: the dataframe
plus the columns whose metadata carries `is_multivalued = True`. -/
structure TableMeta where
  dataframe : DataFrame
  multivalued : List String
deriving Repr, DecidableEq, Inhabited

abbrev Metadata := List (String × TableMeta)

/-- `metadata[t]['dataframe']` (all call sites look up existing keys). -/
def getDf (md : Metadata) (t : String) : DataFrame :=
  ((plookup md t).map (·.dataframe)).getD ⟨[], []⟩

/-- The table enumeration order (`list(metadata.keys())`). -/
def table_names (md : Metadata) : List String := md.map (·.1)

/-!  ## fk_detector.py — ForeignKeyDetector

The three cycle checks of the repository
(`ForeignKeyDetector._would_create_circular_dependency`,
`Normalizer._would_create_circular_fk`, and the `has_cycle` closure of
`SchemaValidator.validate_foreign_keys`) all run the same recursive DFS with a
shared `visited` set and a per-path `rec_stack`; `dfsVisit` is that DFS.  The
Python recursion terminates because every call marks an unvisited node, so a
fuel of `2 * |edges| + 2` (more than the number of distinct nodes) makes the
fuel-free branch unreachable; it is defined by `Nat.rec` so that concrete runs
reduce inside the kernel. -/
def dfsVisit (adj : List (String × String)) (fuel : Nat) :
    String → List String → List String → Bool × List String :=
  Nat.rec (motive := fun _ => String → List String → List String → Bool × List String)
    (fun _ visited _ => (true, visited))
    (fun _ ih node visited recStack =>
      let rs := node :: recStack
      (adj.filterMap (fun e => if e.1 == node then some e.2 else none)).foldl
        (fun acc n =>
          if acc.1 then acc
          else if n ∈ acc.2 then (if n ∈ rs then (true, acc.2) else acc)
          else ih n acc.2 rs)
        (false, node :: visited))
    fuel

/-- Fuel that the DFS can never exhaust on the given edge list. -/
def cycleFuel (adj : List (String × String)) : Nat := 2 * adj.length + 2

/-- `ForeignKeyDetector._would_create_circular_dependency`: DFS from `t1` over
the already-accepted `(child, parent)` pairs plus the proposed edge.  (The
source also inserts each pair itself as an inert dict key; that has no
observable effect on the traversal and is omitted.) -/
def would_create_circular_dependency (rels : List (String × String))
    (t1 t2 : String) : Bool :=
  let adj := rels ++ [(t1, t2)]
  (dfsVisit adj (cycleFuel adj) t1 [] []).1

/-- `ForeignKeyDetector.detect_hierarchical_pattern`.  The source regexes are
prefix-anchored (`re.match`); `parent_(.+)` and friends capture everything
after the prefix, and `(.+)_parent` captures the longest (greedy) nonempty
prefix followed by `_parent`; the captured group must occur inside the
lowercased table name. -/
def detect_hierarchical_pattern (table_name col_name : String) : Bool :=
  let cl := (strLower col_name)
  let tl := (strLower table_name)
  let checkPre := fun (p : String) =>
    if strStarts cl p && cl.length > p.length then
      strContains tl (strDrop cl p.length)
    else false
  let checkSufParent :=
    match lastSubAt cl.toList "_parent".toList with
    | some i => if i ≥ 1 then strContains tl ((cl.toList.take i).asString) else false
    | none => false
  checkPre "parent_" || checkSufParent || checkPre "manager_" ||
    checkPre "supervisor_" || checkPre "chief_" || checkPre "head_"

/-- `ForeignKeyDetector.is_valid_foreign_key`: the `is_valid` field of the
source's result dict (the textual `reasons` are elided).  The rules are tested
in source order; the 100% subset requirement compares the coverage fraction
against 1 exactly as the float expression does. -/
def is_valid_foreign_key (md : Metadata) (profiles : Profiles)
    (rels : List (String × String))
    (child_table fk_col parent_table pk_col : String) : Bool :=
  let df_child := getDf md child_table
  let df_parent := getDf md parent_table
  match pk_truthy profiles parent_table with
  | none => false
  | some parent_pk =>
    if !(decide (pk_col ∈ parent_pk)) then false
    else
      let rule4fail :=
        match pk_truthy profiles child_table with
        | some child_pk => decide (fk_col ∈ child_pk)
        | none => false
      if rule4fail then false
      else
        let cl := (strLower fk_col)
        let has_id_pattern := strContains cl "_id" || strEndsWith cl "id" ||
          strContains cl "_key" || strContains cl "_code" || strContains cl "_ref"
        if !has_id_pattern then false
        else
          let fk_values := uniqueNonNull df_child fk_col
          let pk_values := uniqueNonNull df_parent pk_col
          if fk_values.isEmpty then false
          else
            let values_not_in_parent := fk_values.filter (fun v => !(decide (v ∈ pk_values)))
            -- `subset_coverage = (|fk| - |missing|) / |fk| < 1.0` holds exactly
            -- when some value is missing (`|fk|` is nonzero here)
            if !values_not_in_parent.isEmpty then false
            else if rowCount df_parent > rowCount df_child then false
            else if would_create_circular_dependency rels child_table parent_table then false
            else true

/-- One detected foreign-key edge (the `reasons` payload is elided). -/
structure FKEdge where
  fk_table : String
  fk_column : String
  pk_table : String
  pk_column : String
  rel_type : String
deriving Repr, DecidableEq, Inhabited

/-- Mutable state of `detect_all_foreign_keys`: the `detected_fks` list, the
`detected_relationships` set (an insertion-ordered list; only membership
matters), and—standing in for the log—the `(child, column)` pairs skipped as
ambiguous with no name-similarity winner. -/
structure DetectState where
  fks : List FKEdge
  rels : List (String × String)
  ambiguous_skipped : List (String × String)
deriving Repr, DecidableEq

/-- `set.add` on the relationship set. -/
def addRel (rels : List (String × String)) (e : String × String) :
    List (String × String) :=
  if decide (e ∈ rels) then rels else rels ++ [e]

/-- Phase 3 of `detect_all_foreign_keys`: the `valid_parents` collected for one
`(child, fk_col)` pair — every other profiled table's primary-key column that
`is_valid_foreign_key` accepts, in table order. -/
def valid_parents_for (md : Metadata) (profiles : Profiles)
    (rels : List (String × String)) (child fk_col : String) :
    List (String × String) :=
  (table_names md).flatMap (fun parent =>
    if parent == child then []
    else
      match pk_truthy profiles parent with
      | none => []
      | some parent_pk =>
        parent_pk.filterMap (fun pk_col =>
          if is_valid_foreign_key md profiles rels child fk_col parent pk_col then
            some (parent, pk_col)
          else none))

/-- `fk_col.lower()` stripped of the `_id`/`_key`/`_code`/`_ref` suffixes
(Python `str.replace` removes every occurrence). -/
def strip_key_suffixes (s : String) : String :=
  replaceStr (replaceStr (replaceStr (replaceStr s "_id" "") "_key" "") "_code" "") "_ref" ""

/-- Phase 4 tie-breaking: the best name match among multiple valid parents and
its score (`len(parent_table_name)`, first maximum wins as with Python
`max`-style updates guarded by a strict `>`). -/
def best_name_match (base : String) (vp : List (String × String)) :
    Option (String × String) × Nat :=
  vp.foldl
    (fun acc p =>
      let pn := (strLower p.1)
      if base == pn || strContains base pn || strContains pn base then
        if pn.length > acc.2 then (some p, pn.length) else acc
      else acc)
    (none, 0)

/-- Processing of one `(child, fk_col)` pair in the main pass of
`detect_all_foreign_keys`: exactly one valid parent is accepted directly;
several valid parents go through name-similarity resolution, and a column with
no strictly positive score is recorded as skipped. -/
def step_column (md : Metadata) (profiles : Profiles) (st : DetectState)
    (pair : String × String) : DetectState :=
  let child := pair.1
  let fk_col := pair.2
  let vp := valid_parents_for md profiles st.rels child fk_col
  match vp with
  | [] => st
  | [p] =>
    { fks := st.fks ++ [⟨child, fk_col, p.1, p.2, "parent-child"⟩],
      rels := addRel st.rels (child, p.1),
      ambiguous_skipped := st.ambiguous_skipped }
  | _ =>
    let base := strip_key_suffixes (strLower fk_col)
    let bm := best_name_match base vp
    match bm.1 with
    | some p =>
      if bm.2 > 0 then
        { fks := st.fks ++ [⟨child, fk_col, p.1, p.2, "parent-child"⟩],
          rels := addRel st.rels (child, p.1),
          ambiguous_skipped := st.ambiguous_skipped }
      else { st with ambiguous_skipped := st.ambiguous_skipped ++ [(child, fk_col)] }
    | none => { st with ambiguous_skipped := st.ambiguous_skipped ++ [(child, fk_col)] }

/-- The `(child table, non-PK column)` pairs enumerated by phases 1–2 of
`detect_all_foreign_keys`, in source order. -/
def main_queue (md : Metadata) (profiles : Profiles) : List (String × String) :=
  md.flatMap (fun tm =>
    let child_pk := (pk_truthy profiles tm.1).getD []
    (tm.2.dataframe.columns.filter (fun c => !(decide (c ∈ child_pk)))).map
      (fun c => (tm.1, c)))

/-- The main (cross-table) pass of `detect_all_foreign_keys`. -/
def run_main (md : Metadata) (profiles : Profiles) :
    DetectState → List (String × String) → DetectState
  | st, [] => st
  | st, q :: qs => run_main md profiles (step_column md profiles st q) qs

/-- Phase 5 of `detect_all_foreign_keys`: the self-referencing (hierarchical)
pass.  A hierarchical column whose full validation fails (it always does, the
self edge trips the circular check) is accepted by the relaxed fallback when
its values are a subset of the table's single-column primary key. -/
def self_ref_pass (md : Metadata) (profiles : Profiles)
    (rels : List (String × String)) (fks : List FKEdge) : List FKEdge :=
  md.foldl
    (fun acc tm =>
      let t := tm.1
      let df := tm.2.dataframe
      match pk_truthy profiles t with
      | none => acc
      | some pk =>
        match pk with
        | [pk_col] =>
          df.columns.foldl
            (fun acc2 col =>
              if col == pk_col then acc2
              else if detect_hierarchical_pattern t col then
                if is_valid_foreign_key md profiles rels t col t pk_col then acc2
                else
                  let df_values := uniqueNonNull df col
                  let pk_values := uniqueNonNull df pk_col
                  if df_values.all (fun v => decide (v ∈ pk_values)) &&
                      !(decide (col ∈ pk)) then
                    acc2 ++ [⟨t, col, t, pk_col, "self-referencing"⟩]
                  else acc2
              else acc2)
            acc
        | _ => acc)
    fks

/-- `ForeignKeyDetector.detect_all_foreign_keys`, with the final detector state
(detected edges, relationship set, ambiguous skips). -/
def detect_all_state (md : Metadata) (profiles : Profiles) : DetectState :=
  let st := run_main md profiles ⟨[], [], []⟩ (main_queue md profiles)
  { st with fks := self_ref_pass md profiles st.rels st.fks }

/-- `ForeignKeyDetector.detect_all_foreign_keys` (returned edge list). -/
def detect_all_foreign_keys (md : Metadata) (profiles : Profiles) : List FKEdge :=
  (detect_all_state md profiles).fks

/-!  ## schema_validator.py — SchemaValidator

Each `validate_*` method is split into a pure message generator (a function of
the tables, profiles and foreign keys only) plus the state update appending to
the accumulated `errors`/`warnings` lists, which is exactly the net effect of
the source's interleaved `append` calls.  Message payloads are abbreviated
renderings of the source's f-strings; no claim depends on their exact text. -/

/-- `SchemaValidator` instance state. -/
structure Validator where
  tables : List (String × DataFrame)
  profiles : Profiles
  foreign_keys : List FKEdge
  errors : List String
  warnings : List String
deriving Repr, DecidableEq

/-- `SchemaValidator.__init__`: fresh error and warning lists. -/
def mkValidator (tables : List (String × DataFrame)) (profiles : Profiles)
    (fks : List FKEdge) : Validator :=
  ⟨tables, profiles, fks, [], []⟩

/-- Per-table body of `validate_primary_keys`: (check passed, errors, warnings). -/
def pk_check_table (profiles : Profiles) (fks : List FKEdge) (t : String)
    (df : DataFrame) : Bool × List String × List String :=
  match plookup profiles t with
  | none => (true, [], [])
  | some prof =>
    match prof.primary_key with
    | none => (true, [], ["warn: table " ++ t ++ " has no primary key defined"])
    | some [] => (true, [], ["warn: table " ++ t ++ " has no primary key defined"])
    | some pk =>
      let pk_cols := pk.filter (fun c => df.columns.contains c)
      if pk_cols.isEmpty then
        (false, ["error: table " ++ t ++ ": PK columns not found in table"], [])
      else
        let e1 := if hasDupProj df pk_cols then
            ["error: table " ++ t ++ ": PK is not unique"] else []
        let e2 := pk_cols.filterMap (fun c =>
          if (colCells df c).any (fun x => x.isNone) then
            some ("error: table " ++ t ++ ": PK column " ++ c ++ " contains NULL values")
          else none)
        let e3 := fks.filterMap (fun fk =>
          if fk.fk_table == t && decide (fk.fk_column ∈ pk_cols) then
            some ("error: table " ++ t ++ ": PK column " ++ fk.fk_column ++ " is also a FK")
          else none)
        ((e1 ++ e2 ++ e3).isEmpty, e1 ++ e2 ++ e3, [])

/-- Pure part of `SchemaValidator.validate_primary_keys`. -/
def pk_check (tables : List (String × DataFrame)) (profiles : Profiles)
    (fks : List FKEdge) : Bool × List String × List String :=
  tables.foldl
    (fun acc te =>
      let c := pk_check_table profiles fks te.1 te.2
      (acc.1 && c.1, acc.2.1 ++ c.2.1, acc.2.2 ++ c.2.2))
    (true, [], [])

/-- `SchemaValidator.validate_primary_keys` (returns the flag, appends). -/
def validate_primary_keys (v : Validator) : Bool × Validator :=
  let r := pk_check v.tables v.profiles v.foreign_keys
  (r.1, { v with errors := v.errors ++ r.2.1, warnings := v.warnings ++ r.2.2 })

/-- Cycle half of `validate_foreign_keys`: DFS from every dependency key with a
shared `visited` set (kept across iterations, including early aborts). -/
def fk_cycle_check (fks : List FKEdge) : Bool × List String :=
  let adj := fks.map (fun fk => (fk.fk_table, fk.pk_table))
  let r := (sdedup (fks.map (·.fk_table))).foldl
    (fun (acc : Bool × List String × List String) t =>
      if decide (t ∈ acc.2.2) then acc
      else
        let d := dfsVisit adj (cycleFuel adj) t acc.2.2 []
        if d.1 then
          (false, acc.2.1 ++ ["error: circular FK dependency detected involving table " ++ t],
           d.2)
        else (acc.1, acc.2.1, d.2))
    (true, [], [])
  (r.1, r.2.1)

/-- Referential-integrity half of `validate_foreign_keys` (90% tolerance,
modelled as the rational 9/10). -/
def fk_ref_check (tables : List (String × DataFrame)) (fks : List FKEdge) :
    Bool × List String :=
  fks.foldl
    (fun acc fk =>
      match plookup tables fk.fk_table, plookup tables fk.pk_table with
      | some fk_df, some pk_df =>
        if !(fk_df.columns.contains fk.fk_column) ||
            !(pk_df.columns.contains fk.pk_column) then
          (false, acc.2 ++ ["error: FK " ++ fk.fk_table ++ "." ++ fk.fk_column ++
            " columns not found"])
        else
          let fk_values := uniqueNonNull fk_df fk.fk_column
          let pk_values := uniqueNonNull pk_df fk.pk_column
          let invalid_refs := fk_values.filter (fun x => !(decide (x ∈ pk_values)))
          if !invalid_refs.isEmpty then
            -- `coverage = 1 - m/n < 0.9` compared exactly: `10 * m > n`
            if 10 * invalid_refs.length > fk_values.length then
              (false, acc.2 ++ ["error: FK " ++ fk.fk_table ++ "." ++ fk.fk_column ++
                " values missing in referenced table"])
            else acc
          else acc
      | _, _ => acc)
    (true, [])

/-- Pure part of `SchemaValidator.validate_foreign_keys`. -/
def fk_check (tables : List (String × DataFrame)) (fks : List FKEdge) :
    Bool × List String :=
  let c := fk_cycle_check fks
  let r := fk_ref_check tables fks
  (c.1 && r.1, c.2 ++ r.2)

/-- `SchemaValidator.validate_foreign_keys`. -/
def validate_foreign_keys (v : Validator) : Bool × Validator :=
  let r := fk_check v.tables v.foreign_keys
  (r.1, { v with errors := v.errors ++ r.2 })

/-- Pure part of `SchemaValidator.validate_lossless_join`. -/
def lossless_check (tables : List (String × DataFrame)) (fks : List FKEdge) :
    Bool × List String :=
  fks.foldl
    (fun acc fk =>
      match plookup tables fk.fk_table, plookup tables fk.pk_table with
      | some fk_df, some _ =>
        if !(fk_df.columns.contains fk.fk_column) then
          (false, acc.2 ++ ["error: lossless join violated: FK column " ++
            fk.fk_column ++ " missing from " ++ fk.fk_table])
        else acc
      | _, _ => acc)
    (true, [])

/-- `SchemaValidator.validate_lossless_join`. -/
def validate_lossless_join (v : Validator) : Bool × Validator :=
  let r := lossless_check v.tables v.foreign_keys
  (r.1, { v with errors := v.errors ++ r.2 })

/-- Pure part of `SchemaValidator.validate_3nf` (always passes; may warn about
comma-heavy address-like columns). -/
def nf3_check (tables : List (String × DataFrame)) : List String :=
  tables.flatMap (fun te =>
    te.2.columns.filterMap (fun col =>
      if strContains (strLower col) "address" then
        let sample := (nonNullVals te.2 col).take 10
        let commas := (sample.filter (fun s => strContains s ",")).length
        -- `commas > len(sample) * 0.5` compared exactly
        if 2 * commas > sample.length then
          some ("warn: table " ++ te.1 ++ ": column " ++ col ++
            " may contain concatenated address data")
        else none
      else none))

/-- `SchemaValidator.validate_3nf`. -/
def validate_3nf (v : Validator) : Bool × Validator :=
  (true, { v with warnings := v.warnings ++ nf3_check v.tables })

/-- The report returned by `SchemaValidator.validate_all`. -/
structure ValidationResult where
  primary_keys : Bool
  foreign_keys : Bool
  lossless_join : Bool
  nf3_compliance : Bool
  is_valid : Bool
  errors : List String
  warnings : List String
deriving Repr, DecidableEq

/-- `SchemaValidator.validate_all`: runs the four checks in order and snapshots
the accumulated error/warning lists into the report. -/
def validate_all (v : Validator) : ValidationResult × Validator :=
  let r1 := validate_primary_keys v
  let r2 := validate_foreign_keys r1.2
  let r3 := validate_lossless_join r2.2
  let r4 := validate_3nf r3.2
  ({ primary_keys := r1.1, foreign_keys := r2.1, lossless_join := r3.1,
     nf3_compliance := r4.1,
     is_valid := r1.1 && r2.1 && r3.1 && r4.1,
     errors := r4.2.errors, warnings := r4.2.warnings }, r4.2)

/-!  ## normalizer.py — Normalizer

`normalization_log` strings are modelled only where a claim targets them (the
attribute-preservation check); purely textual log lines elsewhere, and the
log-only step `_detect_business_entities`, are elided.  `DataFrame.drop` is
modelled as a column filter; unguarded Python `raise` sites on the engine's
own control path (the `KeyError` in `_explode_multivalued_column`'s row
lookups, the `TypeError` on a `None` primary key in
`_infer_missing_foreign_keys`) are modelled with `Except`. -/

/-- `Normalizer.PK_BLACKLIST_PATTERNS`. -/
def PK_BLACKLIST_PATTERNS : List String :=
  ["email", "phone", "mobile", "fax", "contact",
   "price", "amount", "cost", "total", "subtotal", "tax", "discount",
   "quantity", "qty", "count", "balance", "payment", "salary", "wage",
   "date", "time", "timestamp", "created", "updated", "modified",
   "name", "description", "desc", "title", "label", "comment", "note",
   "status", "state", "type", "category", "class", "level", "priority",
   "address", "street", "city", "zip", "postal", "country",
   "product", "item", "sku", "barcode", "isbn",
   "supplier", "vendor", "manufacturer", "brand", "model",
   "order_date", "ship_date", "delivery_date", "due_date"]

/-- `Normalizer._has_identity_semantics`, reduced to its confidence level:
2 = high (a strong pattern occurs anywhere), 1 = moderate (an identity word is
an underscore-separated part, or leads/ends the name), 0 = none. -/
def identity_confidence (col_name : String) : Nat :=
  let cl := (strLower col_name)
  if (["_id", "_key", "_code", "_ref", "_number", "sys_id", "uuid", "guid"].any
      (fun p => strContains cl p)) then 2
  else
    let parts := splitOnStr cl "_"
    let moderate := ["id", "key", "code", "ref", "number"]
    if moderate.any (fun p => decide (p ∈ parts)) then 1
    else if moderate.any (fun p => strStarts cl p || strEndsWith cl p) then 1
    else 0

/-- `has_identity` field of `Normalizer._has_identity_semantics`. -/
def has_identity_semantics (col_name : String) : Bool :=
  identity_confidence col_name ≥ 1

/-- `Normalizer._is_suitable_for_primary_key` (`is_suitable` field): identity
first, blacklist only for non-high confidence, then uniqueness and nulls. -/
def is_suitable_for_primary_key (col : String) (df : DataFrame) : Bool :=
  let conf := identity_confidence col
  if conf == 0 then false
  else
    let cl := (strLower col)
    if conf != 2 && PK_BLACKLIST_PATTERNS.any (fun p => strContains cl p) then false
    else if nunique df col < rowCount df then false
    else if (colCells df col).any (fun x => x.isNone) then false
    else true

/-- The `while surrogate_key in df.columns` loop of the surrogate-name
generators: tries `<t>_id`, `<t>_id_1`, `<t>_id_2`, ...  The loop always frees
a name within `|columns| + 1` attempts, which the fuel covers. -/
def surrogate_name_from (t : String) (cols : List String) : String :=
  let base := t ++ "_id"
  if !(cols.contains base) then base
  else
    let rec go : Nat → Nat → String
      | 0, c => base ++ "_" ++ toString c
      | f + 1, c =>
        let cand := base ++ "_" ++ toString c
        if cols.contains cand then go f (c + 1) else cand
    go (cols.length + 1) 1

/-- `Normalizer._get_or_create_primary_key`: the profiled key when truthy, else
the name of a fresh surrogate column (the column itself is never added). -/
def get_or_create_primary_key (profiles : Profiles) (t : String) (df : DataFrame) :
    List String :=
  match pk_truthy profiles t with
  | some pk => pk
  | none => [surrogate_name_from t df.columns]

/-- Delimiter detection of `_explode_multivalued_column`: the first delimiter
with the strictly largest count over the first 100 non-null values wins. -/
def detect_delimiter (df : DataFrame) (col : String) : Option String :=
  let sample := (nonNullVals df col).take 100
  (([",", ";", "|", "/", ":"] : List String).foldl
    (fun acc d =>
      let cnt := (sample.filter (fun s => strContains s d)).length
      if cnt > acc.2 then (some d, cnt) else acc)
    ((none : Option String), 0)).1

/-- `Normalizer._explode_multivalued_column`.  Returns `none` when no delimiter
is detected or no rows result (the source returns Python `None`); errors with
the source's `KeyError` when a primary-key name is not a column of `df` (the
dict comprehension `{p: row[p] for p in pk}` raises there). -/
def explode_multivalued_column (df : DataFrame) (col : String) (pk : List String) :
    Except String (Option DataFrame) := do
  if (colIdx df col).isNone then
    throw ("KeyError: " ++ col)
  match detect_delimiter df col with
  | none => pure none
  | some delim =>
    let rows ← df.rows.foldlM
      (fun (acc : List (List Cell)) row => do
        let pk_cells ← pk.mapM (fun p =>
          match colIdx df p with
          | none => throw ("KeyError: " ++ p)
          | some i => pure (row.getD i none))
        let col_value := (cellAt df row col).getD ""
        if strContains col_value delim then
          let values := (splitOnStr col_value delim).map (fun v => strTrim v)
          pure (acc ++ (values.filterMap (fun v =>
            if v == "" then none else some (pk_cells ++ [some v]))))
        else if col_value != "" then
          pure (acc ++ [pk_cells ++ [some col_value]])
        else
          pure acc)
      []
    if rows.isEmpty then pure none
    else pure (some ⟨pk ++ [col ++ "_value"], rows⟩)

/-- `dict.update` on a tables dict. -/
def dict_update (d new : List (String × DataFrame)) : List (String × DataFrame) :=
  new.foldl (fun a e => pstore a e.1 e.2) d

/-- `Normalizer.enforce_1nf`: one child table per multivalued column; the
exploded column is dropped from the parent when a child table was produced. -/
def enforce_1nf (md : Metadata) (profiles : Profiles) (t : String) (df : DataFrame) :
    Except String (List (String × DataFrame)) := do
  let multivalued := (((plookup md t).map (·.multivalued)).getD [])
  let result := [(t, df)]
  if multivalued.isEmpty then
    pure result
  else
    multivalued.foldlM
      (fun (result : List (String × DataFrame)) col => do
        let pk := get_or_create_primary_key profiles t df
        let new_table_name := t ++ "_" ++ col
        let new_df ← explode_multivalued_column df col pk
        match new_df with
        | some ndf =>
          if ndf.rows.length > 0 then
            let result := pstore result new_table_name ndf
            let parent := (plookup result t).getD df
            pure (pstore result t (dropCols parent [col]))
          else pure result
        | none => pure result)
      result

/-- `Normalizer.enforce_2nf`: splits each profiled partial dependency into a
new table keyed by the partial determinant and drops the dependents from the
parent; tables without a profile, without partial dependencies, or without a
composite primary key pass through as a single copy. -/
def enforce_2nf (profiles : Profiles) (t : String) (df : DataFrame) :
    List (String × DataFrame) :=
  let result := [(t, df)]
  match plookup profiles t with
  | none => result
  | some profile =>
    if profile.part_deps.isEmpty then result
    else
      let pkOK := match profile.primary_key with
        | some pk => pk.length ≥ 2
        | none => false
      if !pkOK then result
      else
        profile.part_deps.foldl
          (fun result pd =>
            let key_cols := splitOnStr pd.1 "+"
            let new_table_name := t ++ "_" ++ String.intercalate "_" key_cols
            let new_df := selectDistinct df (key_cols ++ pd.2)
            let result := pstore result new_table_name new_df
            let parent := (plookup result t).getD df
            pstore result t (dropCols parent pd.2))
          result

/-- Group-wise distinct-count maximum for
`df.groupby(det)[cols].nunique().max().max()` (pandas drops null group keys by
default; an empty frame yields the neutral 0, matching the source's NaN
comparison failing). -/
def max_group_nunique_over (df : DataFrame) (det : String) (deps : List String) : Nat :=
  let rows := groupSourceRows df [det] true
  ((groupKeys df [det] true).flatMap (fun k =>
    let grp := rows.filter (fun r => projRow df [det] r == k)
    deps.map (fun d => (sdedup (grp.filterMap (fun r => cellAt df r d))).length))).foldl
    max 0

/-- `Normalizer._verify_functional_dependency_chain`. -/
def verify_functional_dependency_chain (df : DataFrame) (pk_key : String)
    (intermediate_col : String) (target_cols : List String) : Bool :=
  if rowCount df < 2 then false
  else
    let pk_cols := if strContains pk_key "+" then splitOnStr pk_key "+" else [pk_key]
    if !(pk_cols.all (fun c => df.columns.contains c)) then false
    else if !(df.columns.contains intermediate_col) then false
    else if !((groupNunique df pk_cols intermediate_col true).all (· == 1)) then false
    else
      target_cols.any (fun target_col =>
        df.columns.contains target_col &&
        (groupNunique df [intermediate_col] target_col true).all (· == 1) &&
        (max_group_nunique_over df intermediate_col pk_cols > 1 ||
          (let inter_unique := nunique df intermediate_col
           let pk_unique := if pk_cols.length == 1 then rowCount df
             else (sdedup (projections df pk_cols)).length
           -- `inter_unique < pk_unique * 0.9` compared exactly
           10 * inter_unique < 9 * pk_unique)))

/-- `Normalizer._detect_multi_row_pattern`: whether the would-be key column
repeats, and the classified pattern type (evidence strings elided). -/
def detect_multi_row_pattern (df : DataFrame) (table_name : String)
    (potential_pk_col : String) : Bool × Option String :=
  if !(df.columns.contains potential_pk_col) then (false, none)
  else
    let duplicate_count := rowCount df - (sdedup (colCells df potential_pk_col)).length
    if duplicate_count == 0 then (false, none)
    else
      let temporal := ["date", "time", "timestamp", "created", "updated",
        "modified", "occurred", "logged", "recorded"]
      let temporal_cols := df.columns.filter (fun col =>
        temporal.any (fun i => strContains (strLower col) i))
      if !temporal_cols.isEmpty then (true, some "event_history")
      else
        let statusWords := ["status", "state", "stage", "phase", "step", "condition"]
        let status_cols := df.columns.filter (fun col =>
          statusWords.any (fun i => strContains (strLower col) i))
        if status_cols.any (fun sc =>
            (groupNunique df [potential_pk_col] sc true).any (· > 1)) then
          (true, some "status_history")
        else
          let itemWords := ["item", "line", "detail", "entry", "component", "part"]
          if itemWords.any (fun i => strContains (strLower table_name) i) then
            (true, some "line_items")
          else
            let seqWords := ["seq", "sequence", "order", "position", "index", "number", "rank"]
            let sequence_cols := df.columns.filter (fun col =>
              seqWords.any (fun i => strContains (strLower col) i))
            if !sequence_cols.isEmpty then (true, some "sequenced_children")
            else (true, some "child_records")

/-- ASCII lowercase-letter runs of a lowercased name
(`re.findall(r'[a-z]+', col.lower())`). -/
def alphaRunsAux : List Char → List Char → List String
  | [], cur => if cur.isEmpty then [] else [cur.reverse.asString]
  | c :: cs, cur =>
    if decide ('a' ≤ c) && decide (c ≤ 'z') then alphaRunsAux cs (c :: cur)
    else if cur.isEmpty then alphaRunsAux cs []
    else cur.reverse.asString :: alphaRunsAux cs []

/-- Semantic tokens of a column name. -/
def alphaRuns (s : String) : List String := alphaRunsAux (strLower s).toList []

/-- `Normalizer._detect_semantic_entity` (`is_entity` field).  The source's
float thresholds are compared exactly by cross-multiplication over the
uniqueness fraction `unique_count / total_count` (all confidence summands are
multiples of 0.1, so the score is kept as 10 × confidence in `Nat`):
`unique < max(10, total * 0.01)`, `frac < 0.02`, the two bands
`0.05 ≤ frac ≤ 0.7` and `0.02 ≤ frac ≤ 0.9`, and the 0.4 acceptance
threshold. -/
def detect_semantic_entity (df : DataFrame) (intermediate_col : String)
    (dependent_cols : List String) : Bool :=
  if dependent_cols.isEmpty then false
  else
    let unique_count := nunique df intermediate_col
    let total_count := rowCount df
    if (unique_count < 10 || 100 * unique_count < total_count) ||
        50 * unique_count < total_count then false
    else
      let diverse_attrs := dependent_cols.filter (fun dep =>
        df.columns.contains dep &&
        (groupNunique df [intermediate_col] dep true).all (· == 1))
      if diverse_attrs.isEmpty then false
      else
        let attr_tokens := sdedup ((intermediate_col :: diverse_attrs).flatMap alphaRuns)
        let common_words := ["id", "code", "name", "desc", "description", "number",
          "num", "value", "text", "data", "info", "type", "status"]
        let semantic_tokens := attr_tokens.filter (fun w => !(common_words.contains w))
        let structural := ["email", "phone", "address", "street", "city", "state",
          "zip", "postal", "country", "website", "url", "contact", "fax"]
        let has_structural := diverse_attrs.any (fun col =>
          structural.any (fun i => strContains (strLower col) i))
        let confidence10 : Nat :=
          (if diverse_attrs.length == 1 then 1
           else if diverse_attrs.length == 2 then 3
           else 5)
          + (if 5 * total_count ≤ 100 * unique_count &&
                100 * unique_count ≤ 70 * total_count then 2
             else if 2 * total_count ≤ 100 * unique_count &&
                100 * unique_count ≤ 90 * total_count then 1
             else 0)
          + (if semantic_tokens.length ≥ 1 then 2 else 0)
          + (if has_structural then 3 else 0)
        4 ≤ confidence10

/-- `Normalizer._generate_entity_table_name`: the key column with identifier
suffixes removed (both source branches return that base name). -/
def generate_entity_table_name (key_col : String) : String :=
  replaceStr (replaceStr (replaceStr key_col "_id" "") "_code" "") "_key" ""

/-- `Normalizer._create_related_table`: projects the key plus surviving
attributes into a deduplicated new table and drops those attributes from the
parent (keeping the key as an FK). -/
def create_related_table (result : List (String × DataFrame))
    (parent_table new_table_name : String) (df : DataFrame) (key_col : String)
    (attribute_cols : List String) : List (String × DataFrame) :=
  let new_table_cols := key_col :: (attribute_cols.filter (fun c => df.columns.contains c))
  if new_table_cols.length < 2 then result
  else
    let new_df := selectDistinct df new_table_cols
    let result := pstore result new_table_name new_df
    let parent_df := (plookup result parent_table).getD df
    let cols_to_remove := attribute_cols.filter (fun c => parent_df.columns.contains c)
    if cols_to_remove.isEmpty then result
    else pstore result parent_table (dropCols parent_df cols_to_remove)

/-- `Normalizer.enforce_3nf`: each profiled transitive dependency is re-checked
on the data, then classified as a multi-row child table, a semantic entity
table, or left in place. -/
def enforce_3nf (profiles : Profiles) (t : String) (df : DataFrame) :
    List (String × DataFrame) :=
  let result := [(t, df)]
  match plookup profiles t with
  | none => result
  | some profile =>
    if profile.trans_deps.isEmpty then result
    else
      profile.trans_deps.foldl
        (fun result td =>
          let pk_key := td.1
          let intermediate_col := td.2.1
          let target_cols := td.2.2
          if !(verify_functional_dependency_chain df pk_key intermediate_col target_cols) then
            result
          else
            let mr := detect_multi_row_pattern df t intermediate_col
            if mr.1 then
              create_related_table result t (t ++ "_" ++ mr.2.getD "") df
                intermediate_col target_cols
            else if !(detect_semantic_entity df intermediate_col target_cols) then result
            else
              create_related_table result t (generate_entity_table_name intermediate_col)
                df intermediate_col target_cols)
        result

/-- One column of a pandas left merge on `left_key = right_key`, where `right`
has columns `[right_key, col]` (missing keys and null keys yield nulls; the
engine only merges columns absent from the parent, so name collisions beyond
the join key do not arise). -/
def merge_left_one (pdf right : DataFrame) (left_key right_key col : String) :
    DataFrame :=
  let extraCols := if right_key == left_key then [col] else [right_key, col]
  let newRows := pdf.rows.flatMap (fun r =>
    let k := cellAt pdf r left_key
    let ms := right.rows.filter (fun rr =>
      match k, cellAt right rr right_key with
      | some a, some b => a == b
      | _, _ => false)
    if ms.isEmpty then [r ++ extraCols.map (fun _ => (none : Cell))]
    else ms.map (fun rr => r ++ extraCols.map (fun c => cellAt right rr c)))
  ⟨pdf.columns ++ extraCols, newRows⟩

/-- `Normalizer._is_foreign_key_column`. -/
def is_foreign_key_column (fks : List FKEdge) (t : String) (pk_cols : List String) :
    Bool :=
  fks.any (fun fk => fk.fk_table == t && decide (fk.fk_column ∈ pk_cols))

/-- `Normalizer._is_repeating_foreign_key` (including the FIX (1) widening that
treats any `_id`-suffixed column other than the table's own surrogate as a
potential FK). -/
def is_repeating_foreign_key (fks : List FKEdge) (t col : String) (df : DataFrame) :
    Bool :=
  let is_fk := fks.any (fun fk => fk.fk_table == t && fk.fk_column == col)
  let cl := (strLower col)
  let is_fk := is_fk || (strEndsWith cl "_id" && cl != (strLower (t ++ "_id")))
  if !is_fk then false
  else if df.columns.contains col then hasDups (colCells df col)
  else false

/-- `Normalizer._move_fk_dependent_attributes` (fact/dimension split). -/
def move_fk_dependent_attributes (profiles : Profiles) (fks : List FKEdge)
    (tables : List (String × DataFrame)) : List (String × DataFrame) :=
  tables.foldl
    (fun result te =>
      let t := te.1
      let df := te.2
      let table_fks := fks.filter (fun fk => fk.fk_table == t)
      if table_fks.isEmpty then result
      else
        match pk_truthy profiles t with
        | none => result
        | some table_pk =>
          table_fks.foldl
            (fun result fk =>
              let fk_col := fk.fk_column
              let parent_table := fk.pk_table
              if !(df.columns.contains fk_col) then result
              else
                let cols_to_move := df.columns.filter (fun col =>
                  !(decide (col ∈ table_pk)) && col != fk_col &&
                  !(has_identity_semantics col) &&
                  (groupNunique df [fk_col] col true).all (· == 1) &&
                  (groupNunique df table_pk col true).all (· == 1))
                if !cols_to_move.isEmpty && (plookup result parent_table).isSome then
                  let parent_pk_col := fk.pk_column
                  let fk_attr_data := selectDistinct df (fk_col :: cols_to_move)
                  let parent_df0 := (plookup result parent_table).getD df
                  let parent_df := cols_to_move.foldl
                    (fun pdf col =>
                      if pdf.columns.contains col then pdf
                      else
                        let right := selectDistinct fk_attr_data [fk_col, col]
                        let merged := merge_left_one pdf right parent_pk_col fk_col col
                        if merged.columns.contains fk_col && fk_col != parent_pk_col then
                          dropCols merged [fk_col]
                        else merged)
                    parent_df0
                  let result := pstore result parent_table parent_df
                  let cur := (plookup result t).getD df
                  pstore result t (dropCols cur cols_to_move)
                else result)
            result)
    tables

/-- `self.profiles[t] = {}` (if missing) followed by
`self.profiles[t]['primary_key'] = pk`. -/
def set_profile_pk (profiles : Profiles) (t : String) (pk : List String) : Profiles :=
  match plookup profiles t with
  | some p => pstore profiles t { p with primary_key := some pk }
  | none => pstore profiles t ⟨some pk, [], []⟩

/-- `Normalizer._determine_best_primary_key` reduced to what the call site
uses: whether a natural key was found and the chosen key columns.  The
`candidate_keys` parameter is always `None` at the only call site, so its
block is dead code and elided.  Scores follow the source; Python `max` keeps
the first maximum. -/
def determine_best_primary_key (fks : List FKEdge) (t : String) (df : DataFrame) :
    Bool × List String :=
  let natural_candidates := df.columns.filterMap (fun col =>
    if is_repeating_foreign_key fks t col df then none
    else if is_foreign_key_column fks t [col] then none
    else
      let conf := identity_confidence col
      if conf == 0 then none
      else if !(is_suitable_for_primary_key col df) then none
      else
        let cl := (strLower col)
        let score : Int := 100
          + (if conf == 2 then 20 else if conf == 1 then 10 else 0)
          + (if col.length > 20 then -5 else 0)
          + (if strEndsWith cl "_id" then 15
             else if strEndsWith cl "_key" || strEndsWith cl "_code" then 10 else 0)
        some (col, score))
  let best := natural_candidates.foldl
    (fun (acc : Option (String × Int)) c =>
      match acc with
      | none => some c
      | some b => if c.2 > b.2 then some c else acc)
    none
  match best with
  | some b => (true, [b.1])
  | none => (false, [surrogate_name_from t df.columns])

/-- `Normalizer.add_surrogate_keys`: forced surrogate for child tables with a
repeating FK, else the best natural key, else a fresh dense surrogate column
(values `1..N`, rendered as decimal strings); updates the profiles' primary
keys as the source mutates `self.profiles`. -/
def add_surrogate_keys (profiles : Profiles) (fks : List FKEdge)
    (tables : List (String × DataFrame)) :
    List (String × DataFrame) × Profiles :=
  tables.foldl
    (fun (acc : List (String × DataFrame) × Profiles) te =>
      let t := te.1
      let df := te.2
      let surrogate_col := t ++ "_id"
      let has_surrogate := df.columns.contains surrogate_col
      let has_repeating_fk := df.columns.any (fun col =>
        is_repeating_foreign_key fks t col df)
      if has_surrogate && has_repeating_fk then
        (acc.1 ++ [(t, df)], set_profile_pk acc.2 t [surrogate_col])
      else
        let key := determine_best_primary_key fks t df
        if key.1 then (acc.1 ++ [(t, df)], acc.2)
        else
          let sk := key.2.headD (t ++ "_id")
          let df' : DataFrame :=
            ⟨sk :: df.columns, df.rows.mapIdx (fun i r => some (toString (i + 1)) :: r)⟩
          (acc.1 ++ [(t, df')], set_profile_pk acc.2 t [sk]))
    ([], profiles)

/-- `Normalizer._would_create_circular_fk` (the proposed edge is added only if
not already a neighbor). -/
def would_create_circular_fk (fks : List FKEdge) (t1 t2 : String) : Bool :=
  let base := fks.map (fun fk => (fk.fk_table, fk.pk_table))
  let nbrs := base.filterMap (fun e => if e.1 == t1 then some e.2 else none)
  let adj := if decide (t2 ∈ nbrs) then base else base ++ [(t1, t2)]
  (dfsVisit adj (cycleFuel adj) t1 [] []).1

/-- `Normalizer._infer_missing_foreign_keys` (FIX (2)): post-hoc FK inference
for `_id`-suffixed columns against same/pluralized-named parents.  Returns the
extended foreign-key list; the source stores the new edge's type under the key
`relationship`, modelled here in `rel_type`.  When a profile's `primary_key`
is Python `None`, the source's `col in child_pk` raises `TypeError`. -/
def infer_missing_foreign_keys (profiles : Profiles) (fks0 : List FKEdge)
    (tables : List (String × DataFrame)) : Except String (List FKEdge) :=
  let table_pks : List (String × String) := tables.filterMap (fun te =>
    match pk_truthy profiles te.1 with
    | some [pk0] => some (te.1, pk0)
    | _ => none)
  tables.foldlM
    (fun fks te => do
      let child_table := te.1
      let child_df := te.2
      let child_pk : Option (List String) :=
        match plookup profiles child_table with
        | none => some []
        | some p => p.primary_key
      child_df.columns.foldlM
        (fun (fks : List FKEdge) col => do
          let cl := (strLower col)
          if !(strEndsWith cl "_id") then
            pure fks
          else
            match child_pk with
            | none => throw "TypeError: argument of type NoneType is not iterable"
            | some cpk =>
              if decide (col ∈ cpk) then pure fks
              else if fks.any (fun fk =>
                  fk.fk_table == child_table && fk.fk_column == col) then pure fks
              else
                let entity_base := replaceStr cl "_id" ""
                let cand := [entity_base, entity_base ++ "s", entity_base ++ "es"]
                match cand.findSome? (fun n =>
                    (plookup table_pks n).map (fun pk => (n, pk))) with
                | none => pure fks
                | some (parent_table, parent_pk_col) =>
                  if parent_table == child_table then pure fks
                  else if would_create_circular_fk fks child_table parent_table then
                    pure fks
                  else
                    let parent_df := (plookup tables parent_table).getD ⟨[], []⟩
                    let child_values := uniqueNonNull child_df col
                    let parent_values := uniqueNonNull parent_df parent_pk_col
                    if child_values.isEmpty then pure fks
                    else if child_values.all (fun v => decide (v ∈ parent_values)) then
                      pure (fks ++
                        [⟨child_table, col, parent_table, parent_pk_col,
                          "inferred_id_pattern"⟩])
                    else pure fks)
        fks)
    fks0

/-- The dropped original columns computed by
`Normalizer._verify_attribute_preservation`: original columns not found in any
descendant table (tables whose name extends the original's), after discarding
`_id`-suffixed columns that are not original (synthesized surrogates). -/
def missing_after_normalization (t : String) (odf : DataFrame)
    (tables : List (String × DataFrame)) : List String :=
  let final_cols := sdedup (tables.flatMap (fun te =>
    if strStarts te.1 t then te.2.columns else []))
  let final_kept := final_cols.filter (fun c =>
    !(strEndsWith c "_id" && !(odf.columns.contains c)))
  (sdedup odf.columns).filter (fun c => !(final_kept.contains c))

/-- `Normalizer._verify_attribute_preservation` as a predicate: `true` when no
original attribute was dropped (the source then logs success, otherwise a
warning — and in both cases only logs). -/
def verify_attribute_preservation (t : String) (odf : DataFrame)
    (tables : List (String × DataFrame)) : Bool :=
  (missing_after_normalization t odf tables).isEmpty

/-- Result of `Normalizer.normalize_table`: the final tables, the outcome of
the preservation check with its log line, and the updated mutable state
(`self.profiles`, `self.foreign_keys`). -/
structure NormResult where
  tables : List (String × DataFrame)
  preserved : Bool
  log : List String
  profiles : Profiles
  foreign_keys : List FKEdge
deriving Repr, DecidableEq

/-- `Normalizer.normalize_table`: 1NF explosion, per-table 2NF and 3NF,
fact/dimension migration, key assignment, post-hoc FK inference, preservation
check.  The preservation check only logs; the returned tables are the key
assignment stage's output either way. -/
def normalize_table (md : Metadata) (profiles : Profiles) (fks : List FKEdge)
    (t : String) : Except String NormResult := do
  let df := getDf md t
  let tables1 ← enforce_1nf md profiles t df
  let tables2 := tables1.foldl
    (fun acc te => dict_update acc (enforce_2nf profiles te.1 te.2)) []
  let tables3 := tables2.foldl
    (fun acc te => dict_update acc (enforce_3nf profiles te.1 te.2)) []
  let tables35 := move_fk_dependent_attributes profiles fks tables3
  let s4 := add_surrogate_keys profiles fks tables35
  let fks' ← infer_missing_foreign_keys s4.2 fks s4.1
  let preserved := verify_attribute_preservation t df s4.1
  pure
    { tables := s4.1, preserved := preserved,
      log := if preserved then ["ok: all original attributes preserved"]
        else ["warn: attributes not preserved"],
      profiles := s4.2, foreign_keys := fks' }

/-!  ## Claim-level predicates  -/

/-- The spec's FD soundness check: grouping the rows by the determinant (with
the grouping semantics of `_is_functional_dependency`: null keys kept, null
dependents not counted) yields exactly one distinct dependent value in at
least 99% of the groups. -/
def fd_group_test (df : DataFrame) (dets : List String) (dep : String) : Bool :=
  let grouped := groupNunique df dets dep false
  -- at least 99% of the groups have exactly one distinct non-null dependent
  -- value (exact cross-multiplied form of the 0.99 bound, for a nonzero
  -- number of groups)
  99 * grouped.length ≤ 100 * (grouped.filter (· == 1)).length

/-- No cross-table (`parent-child`) edge for the given `(child, column)` pair. -/
def no_pc_edge (p : String × String) (fks : List FKEdge) : Prop :=
  ∀ e ∈ fks, ¬(e.fk_table = p.1 ∧ e.fk_column = p.2 ∧ e.rel_type = "parent-child")

/-!  ## Concrete example inputs

Small schemas used to evaluate the embedded engine at concrete inputs
(counterexamples, failing inputs and witnesses).  All values are strings, as
the engine itself compares values through `str`. -/

/-- `categories(cat_id PK, parent_cat)` with `parent_cat ⊆ cat_id`. -/
def df_cat : DataFrame :=
  ⟨["cat_id", "parent_cat"], [[some "1", some "1"], [some "2", some "1"]]⟩

def md_c1 : Metadata := [("categories", ⟨df_cat, []⟩)]

def prof_c1 : Profiles := [("categories", ⟨some ["cat_id"], [], []⟩)]

/-- The self-referencing edge the detector accepts on `md_c1`. -/
def edge_c1 : FKEdge := ⟨"categories", "parent_cat", "categories", "cat_id", "self-referencing"⟩

/-- Two tables that mutually satisfy every per-edge FK rule. -/
def df_a : DataFrame := ⟨["a_id", "b_id"], [[some "1", some "1"], [some "2", some "2"]]⟩

def df_b : DataFrame := ⟨["b_id", "a_id"], [[some "1", some "1"], [some "2", some "2"]]⟩

def md_ab : Metadata := [("a", ⟨df_a, []⟩), ("b", ⟨df_b, []⟩)]

/-- The same metadata as `md_ab`, enumerated in the opposite order. -/
def md_ba : Metadata := [("b", ⟨df_b, []⟩), ("a", ⟨df_a, []⟩)]

def prof_ab : Profiles :=
  [("a", ⟨some ["a_id"], [], []⟩), ("b", ⟨some ["b_id"], [], []⟩)]

/-- `bids.manager_id` validates against both `u` and `v` (ambiguous, no name
match) and also matches the hierarchical pattern against `bids` itself. -/
def df_bids : DataFrame :=
  ⟨["bid_id", "manager_id"], [[some "1", some "1"], [some "2", some "1"], [some "3", some "2"]]⟩

def df_u : DataFrame := ⟨["u_id"], [[some "1"], [some "2"], [some "3"]]⟩

def df_v : DataFrame := ⟨["v_id"], [[some "1"], [some "2"], [some "3"]]⟩

def md_c9 : Metadata := [("bids", ⟨df_bids, []⟩), ("u", ⟨df_u, []⟩), ("v", ⟨df_v, []⟩)]

def prof_c9 : Profiles :=
  [("bids", ⟨some ["bid_id"], [], []⟩), ("u", ⟨some ["u_id"], [], []⟩),
   ("v", ⟨some ["v_id"], [], []⟩)]

def edge_c9 : FKEdge := ⟨"bids", "manager_id", "bids", "bid_id", "self-referencing"⟩

/-- Scenario C: `orders.customer_id → customers.customer_id`. -/
def df_orders : DataFrame :=
  ⟨["order_id", "customer_id"], [[some "1", some "10"], [some "2", some "10"], [some "3", some "20"]]⟩

def df_customers : DataFrame := ⟨["customer_id"], [[some "10"], [some "20"]]⟩

def md_c5 : Metadata := [("orders", ⟨df_orders, []⟩), ("customers", ⟨df_customers, []⟩)]

def prof_c5 : Profiles :=
  [("orders", ⟨some ["order_id"], [], []⟩), ("customers", ⟨some ["customer_id"], [], []⟩)]

def edge_c5 : FKEdge := ⟨"orders", "customer_id", "customers", "customer_id", "parent-child"⟩

/-- A non-unique identity column next to a unique blacklisted one. -/
def df_c3 : DataFrame :=
  ⟨["x_id", "email"], [[some "1", some "a"], [some "1", some "b"]]⟩

/-- A single unique identity column (candidate-key witness input). -/
def df_c3w : DataFrame := ⟨["user_id"], [[some "1"], [some "2"]]⟩

/-- Three columns where `(a, b)` is duplicate-free but `c` is null on one row. -/
def df_c4 : DataFrame :=
  ⟨["a", "b", "c"], [[some "1", some "x", none], [some "2", some "y", some "z"]]⟩

/-- A table with a profiled key and one multivalued `tags` column. -/
def df_t : DataFrame := ⟨["a_id", "tags"], [[some "1", some "x,y"]]⟩

def md_c2 : Metadata := [("t", ⟨df_t, ["tags"]⟩)]

def prof_c2 : Profiles := [("t", ⟨some ["a_id"], [], []⟩)]

/-- The result of `normalize_table` on `md_c2` (checked by evaluation in the
theorems below). -/
def res_c2 : NormResult :=
  { tables := [("t", ⟨["a_id"], [[some "1"]]⟩),
      ("t_tags", ⟨["t_tags_id", "a_id", "tags_value"],
        [[some "1", some "1", some "x"], [some "2", some "1", some "y"]]⟩)],
    preserved := false,
    log := ["warn: attributes not preserved"],
    profiles := [("t", ⟨some ["a_id"], [], []⟩), ("t_tags", ⟨some ["t_tags_id"], [], []⟩)],
    foreign_keys := [] }

/-- A keyless table with one multivalued column (no candidate key, so no
profiled primary key). -/
def df_emp : DataFrame := ⟨["skills"], [[some "a,b"]]⟩

def md_c7 : Metadata := [("emp", ⟨df_emp, ["skills"]⟩)]

/-- A table profiled with `primary_key = None` (what the profiler records when
no candidate key is found), which makes the validator emit a warning. -/
def df_z : DataFrame := ⟨["x"], [[some "1"]]⟩

def tables_c8 : List (String × DataFrame) := [("z", df_z)]

def prof_c8 : Profiles := [("z", ⟨none, [], []⟩)]

/-!  ## Helper lemmas  -/

theorem sdedup_ne_nil {α : Type} [DecidableEq α] {l : List α} (h : l ≠ []) :
    sdedup l ≠ [] := by
  cases l with
  | nil => exact absurd rfl h
  | cons a as => simp [sdedup, sdedupAux]

theorem pk_list_of_truthy_none {profiles : Profiles} {t : String}
    (h : pk_truthy profiles t = none) : pk_list profiles t = [] := by
  cases hl : plookup profiles t with
  | none => simp [pk_list, hl]
  | some p =>
    cases hpk : p.primary_key with
    | none => simp [pk_list, hl, hpk]
    | some pk =>
      cases pk with
      | nil => simp [pk_list, hl, hpk]
      | cons a as =>
        have hs : pk_truthy profiles t = some (a :: as) := by
          simp [pk_truthy, hl, hpk]
        rw [hs] at h
        exact Option.noConfusion h

theorem pk_list_of_truthy_some {profiles : Profiles} {t : String} {pk : List String}
    (h : pk_truthy profiles t = some pk) : pk_list profiles t = pk := by
  cases hl : plookup profiles t with
  | none =>
    have hs : pk_truthy profiles t = none := by simp [pk_truthy, hl]
    rw [hs] at h
    exact Option.noConfusion h
  | some p =>
    cases hpk : p.primary_key with
    | none =>
      have hs : pk_truthy profiles t = none := by simp [pk_truthy, hl, hpk]
      rw [hs] at h
      exact Option.noConfusion h
    | some l =>
      cases l with
      | nil =>
        have hs : pk_truthy profiles t = none := by simp [pk_truthy, hl, hpk]
        rw [hs] at h
        exact Option.noConfusion h
      | cons a as =>
        have hs : pk_truthy profiles t = some (a :: as) := by
          simp [pk_truthy, hl, hpk]
        rw [hs] at h
        have : a :: as = pk := by simpa using h
        subst this
        simp [pk_list, hl, hpk]

/-- Every foreign key accepted by `is_valid_foreign_key` satisfies the three
state-independent rules: 100% value subset, parent row count at most the
child's, and the child column outside the child's primary key. -/
theorem is_valid_static {md : Metadata} {profiles : Profiles}
    {rels : List (String × String)} {c x par k : String}
    (h : is_valid_foreign_key md profiles rels c x par k = true) :
    ((uniqueNonNull (getDf md c) x).all
      (fun v => decide (v ∈ uniqueNonNull (getDf md par) k)) = true) ∧
    rowCount (getDf md par) ≤ rowCount (getDf md c) ∧
    x ∉ pk_list profiles c := by
  unfold is_valid_foreign_key at h
  cases hp : pk_truthy profiles par with
  | none => rw [hp] at h; exact absurd h (by simp)
  | some parent_pk =>
    rw [hp] at h
    simp only at h
    split at h
    · exact absurd h (by simp)
    · split at h
      · exact absurd h (by simp)
      · rename_i hrule4
        split at h
        · exact absurd h (by simp)
        · split at h
          · exact absurd h (by simp)
          · rename_i hne
            split at h
            · exact absurd h (by simp)
            · rename_i hcov
              split at h
              · exact absurd h (by simp)
              · rename_i hrows
                refine ⟨?_, by omega, ?_⟩
                · -- the missing-value filter was empty
                  have hnil : (uniqueNonNull (getDf md c) x).filter
                      (fun v => !(decide (v ∈ uniqueNonNull (getDf md par) k))) = [] := by
                    rw [← List.isEmpty_iff]
                    simpa using hcov
                  rw [List.filter_eq_nil_iff] at hnil
                  rw [List.all_eq_true]
                  intro v hv
                  have := hnil v hv
                  simpa using this
                · -- rule 4
                  cases hc : pk_truthy profiles c with
                  | none => rw [pk_list_of_truthy_none hc]; simp
                  | some child_pk =>
                    rw [hc] at hrule4
                    rw [pk_list_of_truthy_some hc]
                    simpa using hrule4

theorem mem_valid_parents {md : Metadata} {profiles : Profiles}
    {rels : List (String × String)} {child fk_col : String} {p : String × String}
    (h : p ∈ valid_parents_for md profiles rels child fk_col) :
    is_valid_foreign_key md profiles rels child fk_col p.1 p.2 = true := by
  unfold valid_parents_for at h
  rw [List.mem_flatMap] at h
  obtain ⟨parent, _, hin⟩ := h
  by_cases hpc : parent == child
  · rw [if_pos hpc] at hin
    simp at hin
  · rw [if_neg hpc] at hin
    cases hpk : pk_truthy profiles parent with
    | none => rw [hpk] at hin; simp at hin
    | some parent_pk =>
      rw [hpk] at hin
      rw [List.mem_filterMap] at hin
      obtain ⟨pk_col, _, hsome⟩ := hin
      by_cases hv : is_valid_foreign_key md profiles rels child fk_col parent pk_col
      · rw [if_pos hv] at hsome
        obtain rfl : (parent, pk_col) = p := by simpa using hsome
        exact hv
      · rw [if_neg hv] at hsome
        simp at hsome

theorem best_name_match_aux {base : String} {p : String × String} :
    ∀ (vp : List (String × String)) (acc : Option (String × String) × Nat),
      (vp.foldl
        (fun acc q =>
          let pn := (strLower q.1)
          if base == pn || strContains base pn || strContains pn base then
            if pn.length > acc.2 then (some q, pn.length) else acc
          else acc)
        acc).1 = some p →
      acc.1 = some p ∨ p ∈ vp := by
  intro vp
  induction vp with
  | nil => intro acc h; exact Or.inl h
  | cons v vs ih =>
    intro acc h
    rw [List.foldl_cons] at h
    rcases ih _ h with hacc | hvs
    · by_cases hc : base == (strLower v.1) || strContains base (strLower v.1) ||
          strContains (strLower v.1) base
      · simp only [hc, if_true] at hacc
        by_cases hl : (strLower v.1).length > acc.2
        · simp only [hl, if_pos] at hacc
          have : v = p := by simpa using hacc
          exact Or.inr (this ▸ List.mem_cons_self v vs)
        · simp only [if_neg hl] at hacc
          exact Or.inl hacc
      · simp only [hc] at hacc
        simp only [Bool.false_eq_true, if_false] at hacc
        exact Or.inl hacc
    · exact Or.inr (List.mem_cons_of_mem v hvs)

theorem best_name_match_mem {base : String} {vp : List (String × String)}
    {p : String × String} (h : (best_name_match base vp).1 = some p) : p ∈ vp := by
  unfold best_name_match at h
  rcases best_name_match_aux vp (none, 0) h with h0 | hm
  · exact Option.noConfusion h0
  · exact hm

/-- The three possible outcomes of processing one `(child, column)` pair. -/
theorem step_column_spec (md : Metadata) (profiles : Profiles) (st : DetectState)
    (pair : String × String) :
    (step_column md profiles st pair = st) ∨
    (∃ p ∈ valid_parents_for md profiles st.rels pair.1 pair.2,
      step_column md profiles st pair =
        { fks := st.fks ++ [⟨pair.1, pair.2, p.1, p.2, "parent-child"⟩],
          rels := addRel st.rels (pair.1, p.1),
          ambiguous_skipped := st.ambiguous_skipped }) ∨
    (step_column md profiles st pair =
      { st with ambiguous_skipped := st.ambiguous_skipped ++ [pair] }) := by
  cases hvp : valid_parents_for md profiles st.rels pair.1 pair.2 with
  | nil => exact Or.inl (by simp [step_column, hvp])
  | cons p1 rest =>
    cases rest with
    | nil =>
      refine Or.inr (Or.inl ⟨p1, by simp [hvp], ?_⟩)
      simp [step_column, hvp]
    | cons p2 rest2 =>
      cases hbm : (best_name_match (strip_key_suffixes (strLower pair.2))
          (p1 :: p2 :: rest2)).1 with
      | none =>
        refine Or.inr (Or.inr ?_)
        simp only [step_column, hvp]
        rw [hbm]
      | some p =>
        by_cases hsc : (best_name_match (strip_key_suffixes (strLower pair.2))
            (p1 :: p2 :: rest2)).2 > 0
        · refine Or.inr (Or.inl ⟨p, best_name_match_mem hbm, ?_⟩)
          simp only [step_column, hvp]
          rw [hbm]
          simp [hsc]
        · refine Or.inr (Or.inr ?_)
          simp only [step_column, hvp]
          rw [hbm]
          simp [hsc]

/-- Any edge present after the main pass was either there initially or was
accepted as a `parent-child` edge that passed full validation at some
relationship state. -/
theorem run_main_fks_mem {md : Metadata} {profiles : Profiles} :
    ∀ (q : List (String × String)) (st : DetectState) (e : FKEdge),
      e ∈ (run_main md profiles st q).fks →
      e ∈ st.fks ∨ (e.rel_type = "parent-child" ∧
        ∃ rels, is_valid_foreign_key md profiles rels e.fk_table e.fk_column
          e.pk_table e.pk_column = true) := by
  intro q
  induction q with
  | nil => intro st e h; exact Or.inl h
  | cons pair qs ih =>
    intro st e h
    rw [run_main] at h
    rcases ih _ _ h with hmem | hok
    · rcases step_column_spec md profiles st pair with hs | ⟨p, hp, hs⟩ | hs
      · rw [hs] at hmem; exact Or.inl hmem
      · rw [hs] at hmem
        simp only [List.mem_append, List.mem_singleton] at hmem
        rcases hmem with hmem | rfl
        · exact Or.inl hmem
        · exact Or.inr ⟨rfl, st.rels, mem_valid_parents hp⟩
      · rw [hs] at hmem; exact Or.inl hmem
    · exact Or.inr hok

/-- Columns loop of the self-referencing pass: only self edges are appended. -/
theorem self_ref_cols_mem {md : Metadata} {profiles : Profiles}
    {rels : List (String × String)} {t pk_col : String} {df : DataFrame} :
    ∀ (cols : List String) (acc : List FKEdge) (e : FKEdge),
      e ∈ cols.foldl
        (fun acc2 col =>
          if col == pk_col then acc2
          else if detect_hierarchical_pattern t col then
            if is_valid_foreign_key md profiles rels t col t pk_col then acc2
            else
              let df_values := uniqueNonNull df col
              let pk_values := uniqueNonNull df pk_col
              if df_values.all (fun v => decide (v ∈ pk_values)) &&
                  !(decide (col ∈ [pk_col])) then
                acc2 ++ [⟨t, col, t, pk_col, "self-referencing"⟩]
              else acc2
          else acc2) acc →
      e ∈ acc ∨ (e.fk_table = e.pk_table ∧ e.rel_type = "self-referencing") := by
  intro cols
  induction cols with
  | nil => intro acc e h; exact Or.inl h
  | cons col cs ih =>
    intro acc e h
    rw [List.foldl_cons] at h
    rcases ih _ _ h with hmem | hself
    · by_cases h1 : col == pk_col
      · rw [if_pos h1] at hmem; exact Or.inl hmem
      · rw [if_neg h1] at hmem
        by_cases h2 : detect_hierarchical_pattern t col
        · rw [if_pos h2] at hmem
          by_cases h3 : is_valid_foreign_key md profiles rels t col t pk_col
          · rw [if_pos h3] at hmem; exact Or.inl hmem
          · rw [if_neg h3] at hmem
            simp only at hmem
            by_cases h4 : (uniqueNonNull df col).all
                (fun v => decide (v ∈ uniqueNonNull df pk_col)) &&
                !(decide (col ∈ [pk_col]))
            · rw [if_pos h4] at hmem
              simp only [List.mem_append, List.mem_singleton] at hmem
              rcases hmem with hmem | rfl
              · exact Or.inl hmem
              · exact Or.inr ⟨rfl, rfl⟩
            · rw [if_neg h4] at hmem; exact Or.inl hmem
        · rw [if_neg h2] at hmem; exact Or.inl hmem
    · exact Or.inr hself

/-- Table loop of the self-referencing pass, folded over an arbitrary table
list (the validation inside still consults the full `md`). -/
theorem self_ref_fold_mem {md : Metadata} {profiles : Profiles}
    {rels : List (String × String)} :
    ∀ (ms : Metadata) (fks : List FKEdge) (e : FKEdge),
      e ∈ ms.foldl
        (fun acc tm =>
          let t := tm.1
          let df := tm.2.dataframe
          match pk_truthy profiles t with
          | none => acc
          | some pk =>
            match pk with
            | [pk_col] =>
              df.columns.foldl
                (fun acc2 col =>
                  if col == pk_col then acc2
                  else if detect_hierarchical_pattern t col then
                    if is_valid_foreign_key md profiles rels t col t pk_col then acc2
                    else
                      let df_values := uniqueNonNull df col
                      let pk_values := uniqueNonNull df pk_col
                      if df_values.all (fun v => decide (v ∈ pk_values)) &&
                          !(decide (col ∈ pk)) then
                        acc2 ++ [⟨t, col, t, pk_col, "self-referencing"⟩]
                      else acc2
                  else acc2)
                acc
            | _ => acc) fks →
      e ∈ fks ∨ (e.fk_table = e.pk_table ∧ e.rel_type = "self-referencing") := by
  intro ms
  induction ms with
  | nil => intro fks e h; exact Or.inl h
  | cons tm rest ih =>
    intro fks e h
    rw [List.foldl_cons] at h
    rcases ih _ _ h with hmem | hself
    · simp only at hmem
      cases hpk : pk_truthy profiles tm.1 with
      | none => rw [hpk] at hmem; exact Or.inl hmem
      | some pk =>
        rw [hpk] at hmem
        cases pk with
        | nil => exact Or.inl hmem
        | cons k1 krest =>
          cases krest with
          | nil => exact self_ref_cols_mem tm.2.dataframe.columns fks e hmem
          | cons k2 ks => exact Or.inl hmem
    · exact Or.inr hself

/-- Any edge present after the self-referencing pass was either already
detected or is a self edge of type `self-referencing`. -/
theorem self_ref_pass_mem {md : Metadata} {profiles : Profiles}
    {rels : List (String × String)} {fks : List FKEdge} {e : FKEdge}
    (h : e ∈ self_ref_pass md profiles rels fks) :
    e ∈ fks ∨ (e.fk_table = e.pk_table ∧ e.rel_type = "self-referencing") := by
  unfold self_ref_pass at h
  exact self_ref_fold_mem md fks e h

theorem mem_main_queue_fst {md : Metadata} {profiles : Profiles}
    {p : String × String} (h : p ∈ main_queue md profiles) :
    p.1 ∈ table_names md := by
  unfold main_queue at h
  rw [List.mem_flatMap] at h
  obtain ⟨tm, htm, hin⟩ := h
  rw [List.mem_map] at hin
  obtain ⟨c, _, rfl⟩ := hin
  exact List.mem_map_of_mem _ htm

theorem main_queue_nodup (md : Metadata) (profiles : Profiles)
    (hmd : (table_names md).Nodup)
    (hcols : ∀ tm ∈ md, tm.2.dataframe.columns.Nodup) :
    (main_queue md profiles).Nodup := by
  induction md with
  | nil => simp [main_queue]
  | cons tm ms ih =>
    have hmd' := hmd
    rw [table_names, List.map_cons, List.nodup_cons] at hmd'
    have hinner : ((tm.2.dataframe.columns.filter
        (fun c => !(decide (c ∈ ((pk_truthy profiles tm.1).getD []))))).map
        (fun c => (tm.1, c))).Nodup := by
      apply List.Nodup.map
      · intro a b hab
        simpa using hab
      · exact List.Nodup.filter _ (hcols tm (List.mem_cons_self _ _))
    have hrest : (main_queue ms profiles).Nodup :=
      ih hmd'.2 (fun tm' htm' => hcols tm' (List.mem_cons_of_mem _ htm'))
    have hq : main_queue (tm :: ms) profiles =
        ((tm.2.dataframe.columns.filter
          (fun c => !(decide (c ∈ ((pk_truthy profiles tm.1).getD []))))).map
          (fun c => (tm.1, c))) ++ main_queue ms profiles := by
      simp [main_queue]
    rw [hq]
    apply List.Nodup.append hinner hrest
    rw [List.disjoint_left]
    intro p hp hp'
    rw [List.mem_map] at hp
    obtain ⟨c, _, rfl⟩ := hp
    exact hmd'.1 (mem_main_queue_fst hp')

/-- Main-pass invariant: a pair recorded as ambiguous-skipped never has a
`parent-child` edge, provided the pending queue is duplicate-free and contains
no already-skipped or already-edged pair. -/
theorem run_main_skip_inv (md : Metadata) (profiles : Profiles) :
    ∀ (q : List (String × String)) (st : DetectState),
      q.Nodup →
      (∀ p ∈ st.ambiguous_skipped, no_pc_edge p st.fks) →
      (∀ p ∈ q, p ∉ st.ambiguous_skipped ∧ no_pc_edge p st.fks) →
      ∀ p ∈ (run_main md profiles st q).ambiguous_skipped,
        no_pc_edge p (run_main md profiles st q).fks := by
  intro q
  induction q with
  | nil =>
    intro st _ h1 _ p hp
    exact h1 p hp
  | cons pair qs ih =>
    intro st hnd h1 h2
    rw [run_main]
    have hnd' : qs.Nodup := (List.nodup_cons.mp hnd).2
    have hpairnot : pair ∉ qs := (List.nodup_cons.mp hnd).1
    rcases step_column_spec md profiles st pair with hs | ⟨p0, _, hs⟩ | hs
    · rw [hs]
      exact ih st hnd' h1 (fun p hp => h2 p (List.mem_cons_of_mem _ hp))
    · rw [hs]
      apply ih _ hnd'
      · intro p hp e he
        simp only [List.mem_append, List.mem_singleton] at he
        rcases he with he | rfl
        · exact h1 p hp e he
        · rintro ⟨hA, hB, _⟩
          have : pair = p := Prod.ext hA hB
          exact (h2 pair (List.mem_cons_self _ _)).1 (this ▸ hp)
      · intro p hp
        refine ⟨(h2 p (List.mem_cons_of_mem _ hp)).1, ?_⟩
        intro e he
        simp only [List.mem_append, List.mem_singleton] at he
        rcases he with he | rfl
        · exact (h2 p (List.mem_cons_of_mem _ hp)).2 e he
        · rintro ⟨hA, hB, _⟩
          exact hpairnot ((Prod.ext hA hB) ▸ hp)
    · rw [hs]
      apply ih _ hnd'
      · intro p hp
        simp only [List.mem_append, List.mem_singleton] at hp
        rcases hp with hp | rfl
        · exact h1 p hp
        · exact (h2 p (List.mem_cons_self _ _)).2
      · intro p hp
        constructor
        · simp only [List.mem_append, List.mem_singleton]
          push_neg
          exact ⟨(h2 p (List.mem_cons_of_mem _ hp)).1,
            fun hpp => hpairnot (hpp ▸ hp)⟩
        · exact (h2 p (List.mem_cons_of_mem _ hp)).2

theorem groupNunique_ne_nil {df : DataFrame} {dets : List String} {dep : String}
    (h : df.rows ≠ []) : groupNunique df dets dep false ≠ [] := by
  unfold groupNunique groupKeys groupSourceRows
  simp only [Bool.false_eq_true, if_false]
  intro hc
  rw [List.map_eq_nil_iff] at hc
  exact sdedup_ne_nil (fun hm => h (List.map_eq_nil_iff.mp hm)) hc

theorem fd_group_test_of_is_fd {df : DataFrame} {dets : List String} {dep : String}
    (h : is_functional_dependency df dets dep = true) :
    fd_group_test df dets dep = true := by
  unfold is_functional_dependency at h
  by_cases hrows : rowCount df < 2
  · rw [if_pos hrows] at h; simp at h
  · rw [if_neg hrows] at h
    by_cases hall : ((List.filter (fun x => x == 1)
        (groupNunique df dets dep false)).length ==
        (groupNunique df dets dep false).length) = true
    · unfold fd_group_test
      have hall' : (List.filter (fun x => x == 1)
          (groupNunique df dets dep false)).length =
          (groupNunique df dets dep false).length := by simpa using hall
      simp only [hall']
      simp only [decide_eq_true_eq]
      omega
    · by_cases hfrac : 99 * (groupNunique df dets dep false).length ≤
          100 * (List.filter (fun x => x == 1) (groupNunique df dets dep false)).length
      · unfold fd_group_test
        simpa using hfrac
      · exfalso
        simp only [hall, hfrac] at h
        simp at h

theorem mem_ffd {df : DataFrame} {d deps : List String}
    (h : (d, deps) ∈ find_functional_dependencies df) :
    (∃ det, d = [det] ∧
      deps = df.columns.filter
        (fun dep => decide (dep ≠ det) && is_functional_dependency df [det] dep)) ∨
    hasDupProj df d = false := by
  unfold find_functional_dependencies at h
  simp only [List.mem_append] at h
  rcases h with h | h
  · rw [List.mem_filterMap] at h
    obtain ⟨det, _, hsome⟩ := h
    by_cases he : (df.columns.filter
        (fun dep => decide (dep ≠ det) && is_functional_dependency df [det] dep)).isEmpty
    · rw [if_pos he] at hsome
      exact Option.noConfusion hsome
    · rw [if_neg he] at hsome
      have := Option.some.inj hsome
      obtain ⟨h1, h2⟩ := Prod.mk.inj this
      exact Or.inl ⟨det, h1.symm, h2.symm⟩
  · split at h
    · rw [List.mem_flatMap] at h
      obtain ⟨size, _, hin⟩ := h
      rw [List.mem_filterMap] at hin
      obtain ⟨detCols, _, hsome⟩ := hin
      by_cases hd : hasDupProj df detCols
      · rw [if_pos hd] at hsome
        exact Option.noConfusion hsome
      · rw [if_neg hd] at hsome
        have := Option.some.inj hsome
        obtain ⟨h1, _⟩ := Prod.mk.inj this
        rw [← h1]
        exact Or.inr (by simpa using hd)
    · simp at h

theorem combosOf_length {α : Type} :
    ∀ (l : List α) (n : Nat) (k : List α), k ∈ combosOf l n → k.length = n := by
  intro l
  induction l with
  | nil =>
    intro n k h
    cases n with
    | zero => simp [combosOf] at h; simp [h]
    | succ m => simp [combosOf] at h
  | cons a as ih =>
    intro n k h
    cases n with
    | zero => simp [combosOf] at h; simp [h]
    | succ m =>
      rw [combosOf, List.mem_append] at h
      rcases h with h | h
      · rw [List.mem_map] at h
        obtain ⟨k', hk', rfl⟩ := h
        simp [ih m k' hk']
      · exact ih _ _ h

theorem collect_keys_mem {df : DataFrame} {k : List String} :
    ∀ (combos acc : List (List String)),
      k ∈ collect_keys_of_size df combos acc →
      k ∈ acc ∨ (k ∈ combos ∧
        (k.any (fun col => identity_patterns.any
          (fun p => strContains (strLower col) p)) = true)) := by
  intro combos
  induction combos with
  | nil => intro acc h; exact Or.inl (by simpa [collect_keys_of_size] using h)
  | cons cs rest ih =>
    intro acc h
    rw [collect_keys_of_size] at h
    by_cases hid : cs.any (fun col =>
        identity_patterns.any (fun p => strContains (strLower col) p))
    · simp only [hid, Bool.not_true, Bool.false_eq_true, if_false] at h
      by_cases hdup : hasDupProj df cs
      · simp only [hdup, Bool.not_true, Bool.false_eq_true, if_false] at h
        rcases ih _ h with hm | ⟨hc, hany⟩
        · exact Or.inl hm
        · exact Or.inr ⟨List.mem_cons_of_mem _ hc, hany⟩
      · simp only [hdup, Bool.not_false, if_true] at h
        by_cases h3 : (acc ++ [cs]).length ≥ 3
        · rw [if_pos h3] at h
          rw [List.mem_append, List.mem_singleton] at h
          rcases h with hm | rfl
          · exact Or.inl hm
          · exact Or.inr ⟨List.mem_cons_self _ _, hid⟩
        · rw [if_neg h3] at h
          rcases ih _ h with hm | ⟨hc, hany⟩
          · rw [List.mem_append, List.mem_singleton] at hm
            rcases hm with hm | rfl
            · exact Or.inl hm
            · exact Or.inr ⟨List.mem_cons_self _ _, hid⟩
          · exact Or.inr ⟨List.mem_cons_of_mem _ hc, hany⟩
    · simp only [hid, Bool.not_false, if_true] at h
      rcases ih _ h with hm | ⟨hc, hany⟩
      · exact Or.inl hm
      · exact Or.inr ⟨List.mem_cons_of_mem _ hc, hany⟩

theorem search_key_sizes_mem {df : DataFrame} {k : List String} :
    ∀ (sizes : List Nat), k ∈ search_key_sizes df sizes →
      ∃ s ∈ sizes, k ∈ collect_keys_of_size df (combosOf df.columns s) [] := by
  intro sizes
  induction sizes with
  | nil => intro h; simp [search_key_sizes] at h
  | cons s rest ih =>
    intro h
    rw [search_key_sizes] at h
    by_cases he : (collect_keys_of_size df (combosOf df.columns s) []).isEmpty
    · simp only [he, if_true] at h
      obtain ⟨s', hs', hk⟩ := ih h
      exact ⟨s', List.mem_cons_of_mem _ hs', hk⟩
    · simp only [he, Bool.false_eq_true, if_false] at h
      exact ⟨s, List.mem_cons_self _ _, h⟩

theorem find_candidate_keys_mem {df : DataFrame} {k : List String}
    (h : k ∈ find_candidate_keys df) :
    (∃ col, k = [col] ∧ single_key_blacklisted (strLower col) = false ∧
      single_key_identity (strLower col) = true) ∨
    (2 ≤ k.length ∧ ∃ col ∈ k,
      identity_patterns.any (fun p => strContains (strLower col) p) = true) := by
  unfold find_candidate_keys at h
  split at h
  · simp at h
  · split at h
    · unfold single_candidate_keys at h
      rw [List.mem_filterMap] at h
      obtain ⟨col, _, hsome⟩ := h
      simp only at hsome
      by_cases hb : single_key_blacklisted (strLower col)
      · rw [if_pos hb] at hsome; exact Option.noConfusion hsome
      · rw [if_neg hb] at hsome
        by_cases hi : single_key_identity (strLower col)
        · rw [if_pos hi] at hsome
          by_cases hu : (nunique df col == rowCount df && allNotNull df col) = true
          · rw [if_pos hu] at hsome
            have := Option.some.inj hsome
            exact Or.inl ⟨col, this.symm, by simpa using hb, by simpa using hi⟩
          · rw [if_neg hu] at hsome; exact Option.noConfusion hsome
        · rw [if_neg hi] at hsome; exact Option.noConfusion hsome
    · split at h
      · obtain ⟨s, hs, hk⟩ := search_key_sizes_mem _ h
        rcases collect_keys_mem _ _ hk with hm | ⟨hc, hany⟩
        · simp at hm
        · refine Or.inr ⟨?_, by simpa using hany⟩
          have hlen := combosOf_length _ _ _ hc
          have hs2 : 2 ≤ s := by
            rw [List.mem_range'_1] at hs
            exact hs.1
          omega
      · rename_i hse _
        simp only [Bool.not_eq_true', Bool.not_eq_false] at hse
        rw [List.isEmpty_iff] at hse
        rw [hse] at h
        simp at h

theorem except_bind_ok {ε α β : Type} {x : Except ε α} {f : α → Except ε β} {b : β}
    (h : (x >>= f) = Except.ok b) : ∃ a, x = Except.ok a ∧ f a = Except.ok b := by
  cases x with
  | error e => simp [Bind.bind, Except.bind] at h
  | ok a => exact ⟨a, rfl, by simpa [Bind.bind, Except.bind] using h⟩

/-!  ## Claim theorems  -/

/-- **C10**: for a table name absent from the profiles mapping, `enforce_2nf`
and `enforce_3nf` each return exactly the singleton mapping of the table to
its (unchanged) dataframe, so tables created during decomposition — which have
no profile entry — are never split further by the 2NF or 3NF stages. -/
theorem c10_unprofiled_pass_through (profiles : Profiles) (t : String)
    (df : DataFrame) (h : plookup profiles t = none) :
    enforce_2nf profiles t df = [(t, df)] ∧ enforce_3nf profiles t df = [(t, df)] := by
  constructor
  · unfold enforce_2nf; rw [h]
  · unfold enforce_3nf; rw [h]

theorem c10_unprofiled_pass_through_witness :
    plookup ([] : Profiles) "w" = none ∧
    enforce_2nf [] "w" df_z = [("w", df_z)] ∧
    enforce_3nf [] "w" df_z = [("w", df_z)] :=
  ⟨rfl, (c10_unprofiled_pass_through [] "w" df_z rfl).1,
    (c10_unprofiled_pass_through [] "w" df_z rfl).2⟩

/-- **C7** (code bug): on a table with no profiled primary key and a
multivalued column, `_get_or_create_primary_key` only synthesizes the
surrogate's *name*, never the column, so `_explode_multivalued_column`'s
row lookup `row[p]` raises `KeyError` and `normalize_table` aborts instead of
returning normally. -/
theorem c7_keyless_multivalued_crashes :
    get_or_create_primary_key [] "emp" df_emp = ["emp_id"] ∧
    normalize_table md_c7 [] [] "emp" = Except.error "KeyError: emp_id" :=
  ⟨rfl, rfl⟩

/-- **C3** (counterexample): in `df_c3` the column `email` has uniqueness
ratio 1.0, matches the business blacklist and no identity pattern, yet it
appears in the composite candidate key `["x_id", "email"]` returned by
`find_candidate_keys` — the blacklist is only enforced on single-column
candidates. -/
theorem c3_key_gating_counterexample :
    (nunique df_c3 "email" = rowCount df_c3) ∧
    single_key_blacklisted (strLower "email") = true ∧
    single_key_identity (strLower "email") = false ∧
    ["x_id", "email"] ∈ find_candidate_keys df_c3 ∧
    "email" ∈ (["x_id", "email"] : List String) := by
  refine ⟨by decide, by decide, by decide, by decide, by decide⟩

/-- **C3 (amended)**: a blacklisted, non-identity column never appears as a
*single-column* candidate key — every singleton key returned by
`find_candidate_keys` is non-blacklisted and identity-patterned — while a
composite candidate key only guarantees that at least one of its members
matches an identity pattern, so a blacklisted unique column may appear inside
a composite key. -/
theorem c3_key_gating_amended (df : DataFrame) (k : List String)
    (h : k ∈ find_candidate_keys df) :
    (∀ c, k = [c] → single_key_blacklisted (strLower c) = false ∧
      single_key_identity (strLower c) = true) ∧
    (2 ≤ k.length → ∃ c ∈ k,
      identity_patterns.any (fun p => strContains (strLower c) p) = true) := by
  rcases find_candidate_keys_mem h with ⟨col, rfl, hb, hi⟩ | ⟨hlen, hcol⟩
  · constructor
    · intro c hc
      obtain rfl : col = c := by simpa using hc
      exact ⟨hb, hi⟩
    · intro h2; simp at h2
  · constructor
    · intro c hc
      rw [hc] at hlen
      simp at hlen
    · intro _; exact hcol

theorem c3_key_gating_amended_witness :
    (["user_id"] ∈ find_candidate_keys df_c3w) ∧
    (single_key_blacklisted (strLower "user_id") = false ∧
      single_key_identity (strLower "user_id") = true) :=
  ⟨by decide, (c3_key_gating_amended df_c3w ["user_id"] (by decide)).1 "user_id" rfl⟩

/-- **C4** (counterexample): `find_functional_dependencies` on `df_c4` emits
the composite dependency `(a, b) → c` because the pair is duplicate-free, but
grouping by `(a, b)` and counting distinct non-null `c` per group (the check
of `_is_functional_dependency`) yields 1 in only 50% of the groups — below the
99% bound — since `c` is null in one row. -/
theorem c4_fd_soundness_counterexample :
    (["a", "b"], ["c"]) ∈ find_functional_dependencies df_c4 ∧
    fd_group_test df_c4 ["a", "b"] "c" = false := by
  refine ⟨by decide, by decide⟩

/-- **C4 (amended)**: every dependency discovered by
`find_functional_dependencies` either passes the ≥99% group test (always the
case for single-column determinants, which are emitted only when
`_is_functional_dependency` holds) or has a determinant that uniquely
identifies every row (composite determinants are emitted exactly when the
column combination is duplicate-free, so every group is a single row and the
distinct non-null dependent count per group can be 0 when that row's
dependent is null). -/
theorem c4_fd_soundness_amended (df : DataFrame) (d deps : List String) (a : String)
    (h : (d, deps) ∈ find_functional_dependencies df) (ha : a ∈ deps) :
    fd_group_test df d a = true ∨ hasDupProj df d = false := by
  rcases mem_ffd h with ⟨det, rfl, hdeps⟩ | hdup
  · left
    rw [hdeps, List.mem_filter] at ha
    have hpred := ha.2
    rw [Bool.and_eq_true] at hpred
    exact fd_group_test_of_is_fd hpred.2
  · exact Or.inr hdup

theorem c4_fd_soundness_amended_witness :
    ((["a"], ["b"]) ∈ find_functional_dependencies df_c4) ∧
    ("b" ∈ (["b"] : List String)) ∧
    (fd_group_test df_c4 ["a"] "b" = true ∨ hasDupProj df_c4 ["a"] = false) :=
  ⟨by decide, by decide,
    c4_fd_soundness_amended df_c4 ["a"] ["b"] "b" (by decide) (by decide)⟩

/-- **C1** (code bug): on `categories(cat_id PK, parent_cat ⊆ cat_id)` the
self-referencing pass of `detect_all_foreign_keys` accepts the hierarchical
edge `categories.parent_cat → categories.cat_id`, yet that accepted edge is a
self-loop in the child→parent graph, and `SchemaValidator.validate_foreign_keys`
flags it as a circular FK dependency (check fails with a circular-dependency
error) — contradicting the claim that accepted edge sets are acyclic and that
accepted self-referencing edges are not flagged circular. -/
theorem c1_self_fk_flagged_circular :
    detect_all_foreign_keys md_c1 prof_c1 = [edge_c1] ∧
    edge_c1.fk_table = edge_c1.pk_table ∧
    (validate_foreign_keys (mkValidator [("categories", df_cat)] prof_c1
      [edge_c1])).1 = false ∧
    (validate_foreign_keys (mkValidator [("categories", df_cat)] prof_c1
      [edge_c1])).2.errors =
      ["error: circular FK dependency detected involving table categories"] := by
  refine ⟨by decide, by decide, by decide, by decide⟩

/-- **C6** (code bug): `detect_all_foreign_keys` is not order-independent.
`md_ab` and `md_ba` hold the same table metadata in the two enumeration
orders; with profiles `prof_ab` the run over `[a, b]` accepts
`a.b_id → b.b_id` and rejects the reverse edge as circular, while the run over
`[b, a]` accepts `b.a_id → a.a_id` — the edge sets differ. -/
theorem c6_order_dependence :
    md_ab.Perm md_ba ∧
    (⟨"a", "b_id", "b", "b_id", "parent-child"⟩ : FKEdge) ∈
      detect_all_foreign_keys md_ab prof_ab ∧
    (⟨"a", "b_id", "b", "b_id", "parent-child"⟩ : FKEdge) ∉
      detect_all_foreign_keys md_ba prof_ab ∧
    (⟨"b", "a_id", "a", "a_id", "parent-child"⟩ : FKEdge) ∈
      detect_all_foreign_keys md_ba prof_ab := by
  refine ⟨by decide, by decide, by decide, by decide⟩

/-- **C5**: every cross-table (non-self-referencing) edge accepted by
`detect_all_foreign_keys` satisfies the three state-independent rules — the
child column's distinct non-null values (as strings) are a 100% subset of the
parent primary-key column's values, the parent's row count is at most the
child's, and the child column is not part of the child's own primary key. -/
theorem c5_cross_table_fk_rules (md : Metadata) (profiles : Profiles) (e : FKEdge)
    (he : e ∈ detect_all_foreign_keys md profiles)
    (hcross : e.fk_table ≠ e.pk_table) :
    ((uniqueNonNull (getDf md e.fk_table) e.fk_column).all
      (fun v => decide (v ∈ uniqueNonNull (getDf md e.pk_table) e.pk_column)) = true) ∧
    rowCount (getDf md e.pk_table) ≤ rowCount (getDf md e.fk_table) ∧
    e.fk_column ∉ pk_list profiles e.fk_table := by
  unfold detect_all_foreign_keys detect_all_state at he
  rcases self_ref_pass_mem he with hmem | ⟨hself, _⟩
  · rcases run_main_fks_mem _ _ _ hmem with h0 | ⟨_, rels, hv⟩
    · simp at h0
    · exact is_valid_static hv
  · exact absurd hself hcross

theorem c5_cross_table_fk_rules_witness :
    edge_c5 ∈ detect_all_foreign_keys md_c5 prof_c5 ∧
    edge_c5.fk_table ≠ edge_c5.pk_table ∧
    (((uniqueNonNull (getDf md_c5 edge_c5.fk_table) edge_c5.fk_column).all
      (fun v => decide (v ∈ uniqueNonNull (getDf md_c5 edge_c5.pk_table)
        edge_c5.pk_column)) = true) ∧
     rowCount (getDf md_c5 edge_c5.pk_table) ≤ rowCount (getDf md_c5 edge_c5.fk_table) ∧
     edge_c5.fk_column ∉ pk_list prof_c5 edge_c5.fk_table) :=
  ⟨by decide, by decide,
    c5_cross_table_fk_rules md_c5 prof_c5 edge_c5 (by decide) (by decide)⟩

/-- **C9** (counterexample): on `md_c9` the column `bids.manager_id` validates
against the two parents `u` and `v` with no strictly positive name-similarity
score — it is recorded as ambiguous-skipped — and yet `detect_all_foreign_keys`
still emits an edge for that column: the self-referencing pass matches
`manager_id` against `bids` (whose name contains `id`) and adds
`bids.manager_id → bids.bid_id`, so "no foreign-key edge is emitted for that
column" is false as stated. -/
theorem c9_ambiguous_skip_counterexample :
    ("bids", "manager_id") ∈ (detect_all_state md_c9 prof_c9).ambiguous_skipped ∧
    edge_c9 ∈ detect_all_foreign_keys md_c9 prof_c9 ∧
    edge_c9.fk_table = "bids" ∧ edge_c9.fk_column = "manager_id" := by
  refine ⟨by decide, by decide, by decide, by decide⟩

/-- **C9 (amended)**: whenever a child column validates against more than one
parent with no strictly positive name-similarity score (it is recorded as
ambiguous-skipped), no *parent-child* (cross-table) edge is ever emitted for
that column — the ambiguity is never resolved by guessing; only the separate
self-referencing pass may still emit a self edge for the column.  The
duplicate-freedom hypotheses mirror Python dict keys and dataframe columns. -/
theorem c9_ambiguous_skip_amended (md : Metadata) (profiles : Profiles)
    (hmd : (table_names md).Nodup)
    (hcols : ∀ tm ∈ md, tm.2.dataframe.columns.Nodup)
    (c col : String)
    (hskip : (c, col) ∈ (detect_all_state md profiles).ambiguous_skipped)
    (e : FKEdge) (he : e ∈ detect_all_foreign_keys md profiles) :
    ¬(e.fk_table = c ∧ e.fk_column = col ∧ e.rel_type = "parent-child") := by
  have hinv := run_main_skip_inv md profiles (main_queue md profiles)
    ⟨[], [], []⟩ (main_queue_nodup md profiles hmd hcols)
    (by intro p hp; simp at hp)
    (by
      intro p hp
      exact ⟨by simp, by intro e' he'; simp at he'⟩)
  have hskip' : (c, col) ∈
      (run_main md profiles ⟨[], [], []⟩ (main_queue md profiles)).ambiguous_skipped :=
    hskip
  have he' : e ∈ self_ref_pass md profiles
      (run_main md profiles ⟨[], [], []⟩ (main_queue md profiles)).rels
      (run_main md profiles ⟨[], [], []⟩ (main_queue md profiles)).fks := he
  rcases self_ref_pass_mem he' with hmem | ⟨_, hrel⟩
  · exact hinv (c, col) hskip' e hmem
  · rintro ⟨_, _, hpc⟩
    rw [hrel] at hpc
    exact absurd hpc (by decide)

theorem c9_ambiguous_skip_amended_witness :
    (("bids", "manager_id") ∈ (detect_all_state md_c9 prof_c9).ambiguous_skipped) ∧
    ¬(edge_c9.fk_table = "bids" ∧ edge_c9.fk_column = "manager_id" ∧
      edge_c9.rel_type = "parent-child") :=
  ⟨by decide,
    c9_ambiguous_skip_amended md_c9 prof_c9 (by decide) (by decide)
      "bids" "manager_id" (by decide) edge_c9 (by decide)⟩

/-- **C2** (counterexample): attribute conservation fails on a table with a
multivalued column.  On `t(a_id PK, tags multivalued)` the 1NF explosion
renames `tags` to `tags_value` in the child table, so the original column
`tags` appears in no descendant table, while `a_id` appears in two descendant
tables — the multiset of original columns differs from the multiset of
descendant columns minus synthesized surrogate `_id` columns.  The engine
detects the drop, logs a warning, and returns the tables anyway. -/
theorem c2_attribute_conservation_counterexample :
    normalize_table md_c2 prof_c2 [] "t" = Except.ok res_c2 ∧
    "tags" ∈ df_t.columns ∧
    (res_c2.tables.flatMap (fun te => te.2.columns)).count "tags" = 0 ∧
    "a_id" ∈ df_t.columns ∧
    (res_c2.tables.flatMap (fun te => te.2.columns)).count "a_id" = 2 ∧
    res_c2.preserved = false ∧
    res_c2.log = ["warn: attributes not preserved"] := by
  refine ⟨rfl, by decide, by decide, by decide, by decide, rfl, rfl⟩

/-- **C2 (amended)**: the preservation check never fails the run — whenever
`normalize_table` returns a result, its `preserved` flag is exactly the
`_verify_attribute_preservation` verdict on the original dataframe versus the
final tables, and the log line is the success line or the warning line
accordingly; the decomposed tables are returned either way. -/
theorem c2_preservation_logs_and_continues (md : Metadata) (profiles : Profiles)
    (fks : List FKEdge) (t : String) (r : NormResult)
    (h : normalize_table md profiles fks t = Except.ok r) :
    r.preserved = verify_attribute_preservation t (getDf md t) r.tables ∧
    r.log = (if r.preserved then ["ok: all original attributes preserved"]
      else ["warn: attributes not preserved"]) := by
  unfold normalize_table at h
  obtain ⟨t1, h1, h⟩ := except_bind_ok h
  obtain ⟨f1, h2, h⟩ := except_bind_ok h
  have h3 := Except.ok.inj h
  subst h3
  exact ⟨rfl, rfl⟩

theorem c2_preservation_logs_and_continues_witness :
    normalize_table md_c2 prof_c2 [] "t" = Except.ok res_c2 ∧
    (res_c2.preserved = verify_attribute_preservation "t" (getDf md_c2 "t")
        res_c2.tables ∧
     res_c2.log = (if res_c2.preserved then ["ok: all original attributes preserved"]
       else ["warn: attributes not preserved"])) :=
  ⟨rfl, c2_preservation_logs_and_continues md_c2 prof_c2 [] "t" res_c2 rfl⟩

/-- **C8** (counterexample): re-validation is not idempotent.  On a table
profiled with no primary key the first `validate_all` reports one warning; the
second `validate_all` on the same validator instance reports the warning
twice, because the instance-level error/warning lists are never cleared
between runs. -/
theorem c8_revalidation_counterexample :
    (validate_all (mkValidator tables_c8 prof_c8 [])).1.warnings =
      ["warn: table z has no primary key defined"] ∧
    (validate_all (validate_all (mkValidator tables_c8 prof_c8 [])).2).1.warnings =
      ["warn: table z has no primary key defined",
       "warn: table z has no primary key defined"] ∧
    (validate_all (validate_all (mkValidator tables_c8 prof_c8 [])).2).1.warnings ≠
      (validate_all (mkValidator tables_c8 prof_c8 [])).1.warnings := by
  refine ⟨by decide, by decide, by decide⟩

/-- **C8 (amended)**: validation is purely diagnostic on the schema — a run of
`validate_all` leaves the tables, profiles and foreign keys untouched, and a
second run on the same instance reproduces the same four pass/fail verdicts
and the same overall verdict; but the reported error and warning lists of the
second run are the first run's lists duplicated (the instance accumulates),
not identical to them. -/
theorem c8_revalidation_accumulates (tables : List (String × DataFrame))
    (profiles : Profiles) (fks : List FKEdge) :
    let r1 := validate_all (mkValidator tables profiles fks)
    let r2 := validate_all r1.2
    (r1.2.tables = tables ∧ r1.2.profiles = profiles ∧
     r1.2.foreign_keys = fks) ∧
    (r2.1.primary_keys = r1.1.primary_keys ∧
     r2.1.foreign_keys = r1.1.foreign_keys ∧
     r2.1.lossless_join = r1.1.lossless_join ∧
     r2.1.nf3_compliance = r1.1.nf3_compliance ∧
     r2.1.is_valid = r1.1.is_valid) ∧
    r2.1.errors = r1.1.errors ++ r1.1.errors ∧
    r2.1.warnings = r1.1.warnings ++ r1.1.warnings := by
  simp [validate_all, validate_primary_keys, validate_foreign_keys,
    validate_lossless_join, validate_3nf, mkValidator, List.append_assoc]

end ThreeNF
